import Mathlib

/- Formal model of the twitch-goalie collision-and-scoring loop.

   Two revisions of the source are embedded side by side:
   * Rev1 = src/src/index.ts   : event-driven drain loop, saves and goals
     counters, goal-zone test, rear culling.
   * Rev2 = src/unnamed/part_000 : distance-threshold contact pass, no
     counters, rear culling only.

   Coordinates are exact rationals.  The rapier physics engine is an external
   collaborator; its stepping of a dynamic body in the absence of solver
   contacts is semi-implicit Euler (velocity += gravity * dt, then
   position += velocity * dt), which is what World.step models.  The hand
   colliders of Rev2 are sensors (setSensor(true)), so they never produce a
   solver impulse; no concrete run performed in this file brings a ball into
   solver contact with the goal frame, so free flight plus the explicitly
   applied impulses is the exact engine behaviour on those runs.  The mass of
   a created body is derived by the engine from collider volume and density
   (an irrational number); it enters the model as the inverse-mass parameter
   carried by each body and supplied at creation time. -/

structure Vec3 where
  x : ℚ
  y : ℚ
  z : ℚ
deriving DecidableEq, Repr

instance : Add Vec3 := ⟨fun a b => ⟨a.x + b.x, a.y + b.y, a.z + b.z⟩⟩

def Vec3.scale (c : ℚ) (v : Vec3) : Vec3 := ⟨c * v.x, c * v.y, c * v.z⟩

def Vec3.zero3 : Vec3 := ⟨0, 0, 0⟩

def Vec3.cross (a b : Vec3) : Vec3 :=
  ⟨a.y * b.z - a.z * b.y, a.z * b.x - a.x * b.z, a.x * b.y - a.y * b.x⟩

/-- Squared Euclidean distance, the radicand of every Math.sqrt distance in
the source. -/
def distSq (a b : Vec3) : ℚ :=
  (a.x - b.x) ^ 2 + (a.y - b.y) ^ 2 + (a.z - b.z) ^ 2

/-- Newton iteration for the integer square root, structurally recursive
on explicit fuel so that proofs can evaluate it; with the seed x = n the
iterate decreases strictly until it reaches the floor square root, which
takes well under 128 steps for every number handled in this file. -/
def sqrtIter (n : Nat) : Nat → Nat → Nat
  | 0, x => x
  | fuel + 1, x =>
    let x2 := (x + n / x) / 2
    if x2 < x then sqrtIter n fuel x2 else x

/-- Floor integer square root. -/
def natSqrt (n : Nat) : Nat := sqrtIter n 128 n

/-- Rational stand-in for Math.sqrt (the source never applies it to a
negative number - every radicand is a sum of squares).  It is exact
whenever the argument is the square of a rational (numerator and
denominator are then perfect squares), and every concrete input it is
evaluated on in this file is of that exact kind; comparisons of a square
root against a threshold are embedded by the equivalent squared
comparison, justified by sqrt_lt_iff_sq_lt below. -/
def ratSqrt (q : ℚ) : ℚ := (natSqrt q.num.toNat : ℚ) / (natSqrt q.den : ℚ)

/-- One pose landmark: normalized x, y, z plus optional visibility. -/
structure Landmark where
  x : ℚ
  y : ℚ
  z : ℚ
  visibility : Option ℚ
deriving DecidableEq, Repr

/-- A rigid-body state inside the physics world.  invMass is the inverse
mass the engine computed from the collider descriptor at creation. -/
structure Body where
  pos : Vec3
  linvel : Vec3
  angvel : Vec3
  invMass : ℚ
deriving DecidableEq, Repr

/-- A record of the shape a drained contact event would have: a tag telling
whether it is a collision event and the two collider handles. -/
structure REvent where
  isCollisionEvent : Bool
  c1 : Nat
  c2 : Nat
deriving DecidableEq, Repr

/-- The physics world.  ballBodies maps ball handles to dynamic bodies;
ballColliders lists the ball collider handles (rapier removes a body and
its attached colliders together); handBodyL/handBodyR are the kinematic
hand body translations; eventQueue models the `eventQueue` property read
off the world object in the Rev1 frame loop - no statement of the program
ever assigns it, so it stays none in every reachable state. -/
structure World where
  gravity : Vec3
  ballBodies : List (Nat × Body)
  ballColliders : List Nat
  handBodyL : Vec3
  handBodyR : Vec3
  eventQueue : Option (List REvent)
deriving DecidableEq, Repr

/-- Find the body attached to a handle (first match). -/
def findBody : List (Nat × Body) → Nat → Option Body
  | [], _ => none
  | p :: rest, bid => if p.1 = bid then some p.2 else findBody rest bid

/-- Dereference a ball rigid-body handle, as ball.body.translation() etc.
do; the default is never reached in an aligned state. -/
def World.getBody (w : World) (bid : Nat) : Body :=
  (findBody w.ballBodies bid).getD ⟨Vec3.zero3, Vec3.zero3, Vec3.zero3, 0⟩

/-- Remove every pair with the given handle (handles are unique in every
reachable state, so this is removal of the one body). -/
def removeBodyEntry : List (Nat × Body) → Nat → List (Nat × Body)
  | [], _ => []
  | p :: rest, bid =>
    if p.1 = bid then removeBodyEntry rest bid
    else p :: removeBodyEntry rest bid

/-- Remove an id from a handle list (scene meshes, colliders). -/
def removeId : List Nat → Nat → List Nat
  | [], _ => []
  | i :: rest, bid => if i = bid then removeId rest bid else i :: removeId rest bid

/-- rapierWorld.removeRigidBody: the body and its attached collider leave
the world together. -/
def World.removeRigidBody (w : World) (bid : Nat) : World :=
  { w with ballBodies := removeBodyEntry w.ballBodies bid,
           ballColliders := removeId w.ballColliders bid }

/-- Apply a function to the body at a handle. -/
def World.updateBody (w : World) (bid : Nat) (f : Body → Body) : World :=
  { w with ballBodies := w.ballBodies.map (fun p => if p.1 = bid then (p.1, f p.2) else p) }

def Body.setLinvel (v : Vec3) (b : Body) : Body := { b with linvel := v }

def Body.setAngvel (v : Vec3) (b : Body) : Body := { b with angvel := v }

/-- applyImpulse adds impulse times inverse mass to the linear velocity. -/
def Body.applyImpulse (imp : Vec3) (b : Body) : Body :=
  { b with linvel := b.linvel + Vec3.scale b.invMass imp }

/-- Free-flight semi-implicit Euler integration of one dynamic body over one
substep. -/
def Body.integrate (g : Vec3) (dt : ℚ) (b : Body) : Body :=
  let v := b.linvel + Vec3.scale dt g
  { b with linvel := v, pos := b.pos + Vec3.scale dt v }

/-- rapierWorld.step(): advance every dynamic ball body by one fixed
timestep; kinematic hand bodies are not integrated. -/
def World.step (dt : ℚ) (w : World) : World :=
  { w with ballBodies := w.ballBodies.map (fun p => (p.1, Body.integrate w.gravity dt p.2)) }

def World.stepN : Nat → ℚ → World → World
  | 0, _, w => w
  | n + 1, dt, w => World.stepN n dt (World.step dt w)

/-- Labels emitted by the frame functions, recording in order which phase of
the frame body ran and which ball the contact resolver was invoked on. -/
inductive Ev where
  | shootCall
  | ballSpawn
  | physStep
  | handWrite
  | handPhase
  | drainStart
  | saveResolve (bid : Nat)
  | syncScoreStart
  | syncStart
  | contactStart
  | cullStart
  | render
  | resolve (bid : Nat)
deriving DecidableEq, Repr

/-- A live ball as the game sees it: the shared handle of its mesh, body and
collider, and the render-mesh position. -/
structure BallEnt where
  id : Nat
  meshPos : Vec3
deriving DecidableEq, Repr

def IdsOf (l : List BallEnt) : List Nat := l.map (fun b => b.id)

/-- Per-frame external inputs: the clock read by Date.now(), the four
Math.random() draws of shootBall, and the engine-computed inverse mass of
the ball body a successful shot would create. -/
structure FrameIn where
  now : Int
  rx : ℚ
  ry : ℚ
  tx : ℚ
  ty : ℚ
  invMass : ℚ
deriving DecidableEq, Repr

def SHOT_INTERVAL : Int := 2000

def handColliderSize : ℚ := 3 / 2

def ballImpulseMagnitude : ℚ := 3

structure GoalBounds where
  minX : ℚ
  maxX : ℚ
  minY : ℚ
  maxY : ℚ
  zPlane : ℚ
deriving DecidableEq, Repr

def GOAL_BOUNDS : GoalBounds := ⟨-7, 7, 0, 7, 0⟩

/-- Rev1 checkForGoal: the four goal-bound inequalities plus the z-plane
tolerance test. -/
def checkForGoal (p : Vec3) : Bool :=
  decide (GOAL_BOUNDS.minX ≤ p.x) && decide (p.x ≤ GOAL_BOUNDS.maxX) &&
  decide (GOAL_BOUNDS.minY ≤ p.y) && decide (p.y ≤ GOAL_BOUNDS.maxY) &&
  decide (abs (p.z - GOAL_BOUNDS.zPlane) < 1 / 2)

/- ------------------------------------------------------------------ -/
/- Rev1: src/src/index.ts                                             -/
/- ------------------------------------------------------------------ -/

/-- Rev1 game state.  savesCount and goalsCount are the two counters; the
DOM text sinks are display-only and not modelled. -/
structure S1 where
  world : World
  balls : List BallEnt
  sceneBalls : List Nat
  lastShot : Int
  savesCount : Nat
  goalsCount : Nat
  leftHandMesh : Vec3
  rightHandMesh : Vec3
  leftHandCollider : Option Nat
  rightHandCollider : Option Nat
  nextId : Nat
deriving DecidableEq, Repr

/-- Rev1 shootBall: rate limited by SHOT_INTERVAL since the last successful
shot; on success creates exactly one mesh, one dynamic body and one collider
sharing a fresh handle, applies the normalized-direction impulse of
magnitude ballImpulseMagnitude, and stamps lastShot. -/
def shootBall1 (inp : FrameIn) (s : S1) : S1 × List Ev :=
  if inp.now - s.lastShot < SHOT_INTERVAL then (s, [Ev.shootCall])
  else
    let xPos := (inp.rx - 1 / 2) * 3
    let yPos := inp.ry * 2 + 1
    let spawn : Vec3 := ⟨xPos, yPos, 10⟩
    let targetX := (inp.tx - 1 / 2) * 14
    let targetY := inp.ty * 7
    let f0 : Vec3 := ⟨targetX - xPos, targetY - yPos, -10⟩
    let len := ratSqrt (f0.x ^ 2 + f0.y ^ 2 + f0.z ^ 2)
    let force : Vec3 := ⟨f0.x / len * ballImpulseMagnitude,
                         f0.y / len * ballImpulseMagnitude,
                         f0.z / len * ballImpulseMagnitude⟩
    let bid := s.nextId
    let body := Body.applyImpulse force
      { pos := spawn, linvel := Vec3.zero3, angvel := Vec3.zero3, invMass := inp.invMass }
    ({ s with
        world := { s.world with
                    ballBodies := s.world.ballBodies ++ [(bid, body)],
                    ballColliders := s.world.ballColliders ++ [bid] },
        balls := s.balls ++ [⟨bid, spawn⟩],
        sceneBalls := s.sceneBalls ++ [bid],
        lastShot := inp.now,
        nextId := bid + 1 }, [Ev.shootCall, Ev.ballSpawn])

/-- Rev1 updatePlayerPosition: none models a null landmarks argument; on an
array shorter than 33 the function logs and returns with both hand meshes
unchanged; otherwise landmark 16 drives the left hand and landmark 15 the
right hand through x * 20 - 10, (1 - y) * 7, constant z = 2. -/
def updatePlayerPosition1 (lm : Option (List Landmark)) (s : S1) : S1 :=
  match lm with
  | none => s
  | some l =>
    if h : l.length < 33 then s
    else
      let leftHand := l.get ⟨16, by omega⟩
      let rightHand := l.get ⟨15, by omega⟩
      { s with
          leftHandMesh := ⟨leftHand.x * 20 - 10, (1 - leftHand.y) * 7, 2⟩,
          rightHandMesh := ⟨rightHand.x * 20 - 10, (1 - rightHand.y) * 7, 2⟩ }

/-- Rev1 handleHandCollision: increments the save counter, computes the
damped planar deflection from the ball-minus-hand offset, zeroes linear and
angular velocity, then applies the impulse with the constant forward z
component (impulseMagnitude = 20). -/
def handleHandCollision1 (s : S1) (bid : Nat) (handPos : Vec3) : S1 :=
  let s1 := { s with savesCount := s.savesCount + 1 }
  let ballPos := (World.getBody s1.world bid).pos
  let deflectionX := (ballPos.x - handPos.x) * (1 / 2)
  let deflectionY := (ballPos.y - handPos.y) * (1 / 2)
  let w1 := World.updateBody s1.world bid (Body.setLinvel Vec3.zero3)
  let w2 := World.updateBody w1 bid (Body.setAngvel Vec3.zero3)
  let impulseMagnitude : ℚ := 20
  let w3 := World.updateBody w2 bid
    (Body.applyImpulse ⟨deflectionX * impulseMagnitude,
                        deflectionY * impulseMagnitude,
                        impulseMagnitude⟩)
  { s1 with world := w3 }

/-- Rev1 physics phase: timestep 1/480, 8 substeps. -/
def physSteps1 (s : S1) : S1 :=
  { s with world := World.stepN 8 (1 / 480) s.world }

/-- Rev1 hand-collider update: when both colliders exist, their parent
kinematic bodies receive the current hand mesh positions and are woken. -/
def handUpdate1 (s : S1) : S1 × List Ev :=
  match s.leftHandCollider, s.rightHandCollider with
  | some _, some _ =>
    ({ s with world := { s.world with handBodyL := s.leftHandMesh,
                                      handBodyR := s.rightHandMesh } },
     [Ev.handWrite])
  | _, _ => (s, [])

/-- Which of the two event colliders is a hand, and the mesh position of
that hand; mirrors the includes-chain of the drain loop body. -/
def pickHand1 (s : S1) (e : REvent) : Option (Nat × Vec3) :=
  if s.leftHandCollider = some e.c1 ∨ s.leftHandCollider = some e.c2 then
    some (if s.leftHandCollider = some e.c1 then e.c2 else e.c1, s.leftHandMesh)
  else if s.rightHandCollider = some e.c1 ∨ s.rightHandCollider = some e.c2 then
    some (if s.rightHandCollider = some e.c1 then e.c2 else e.c1, s.rightHandMesh)
  else none

/-- Processing of one drained event in the Rev1 loop body: only collision
events with one hand collider and a ball found by its collider handle reach
the resolver. -/
def drainStep1 (s : S1) (e : REvent) : S1 × List Ev :=
  if e.isCollisionEvent then
    match pickHand1 s e with
    | some (bc, hp) =>
      match s.balls.find? (fun b => b.id == bc) with
      | some b => (handleHandCollision1 s b.id hp, [Ev.saveResolve b.id])
      | none => (s, ([] : List Ev))
    | none => (s, [])
  else (s, [])

/-- Body of the Rev1 drain loop over an event list. -/
def drainLoop1 (s : S1) : List REvent → S1 × List Ev
  | [] => (s, [])
  | e :: rest =>
    let next := drainLoop1 (drainStep1 s e).1 rest
    (next.1, (drainStep1 s e).2 ++ next.2)

/-- Rev1 collision-event phase: reads rapierWorld.eventQueue; when it is
absent (undefined in the source, none here) the while guard is false and
the loop body never runs; were a queue present the loop would shift it
empty while resolving each collision event. -/
def drainPhase1 (s : S1) : S1 × List Ev :=
  match s.world.eventQueue with
  | none => (s, [Ev.drainStart])
  | some q =>
    let r := drainLoop1 { s with world := { s.world with eventQueue := some [] } } q
    (r.1, Ev.drainStart :: r.2)

/-- Output of the combined sync / goal-check / cull filter pass. -/
structure SyncOut where
  world : World
  scene : List Nat
  goals : Nat
  balls : List BallEnt
deriving DecidableEq, Repr

/-- Rev1 balls filter: per ball in order, copy the body translation to the
mesh, then goal test (counter increment and removal of mesh and body), then
rear cull at z < -10 (removal of mesh and body, no counter). -/
def syncScoreGo (w : World) (scene : List Nat) (goals : Nat) :
    List BallEnt → SyncOut
  | [] => ⟨w, scene, goals, []⟩
  | b :: rest =>
    let pos := (World.getBody w b.id).pos
    if checkForGoal pos then
      syncScoreGo (w.removeRigidBody b.id) (removeId scene b.id) (goals + 1) rest
    else if pos.z < -10 then
      syncScoreGo (w.removeRigidBody b.id) (removeId scene b.id) goals rest
    else
      let r := syncScoreGo w scene goals rest
      ⟨r.world, r.scene, r.goals, { b with meshPos := pos } :: r.balls⟩

def syncScore1 (s : S1) : S1 :=
  let r := syncScoreGo s.world s.sceneBalls s.goalsCount s.balls
  { s with world := r.world, sceneBalls := r.scene,
           goalsCount := r.goals, balls := r.balls }

/-- Rev1 animate body: shootBall, solver parameters, 8 physics substeps,
hand collider update, collision-event drain, combined sync /goal /cull
filter, render. -/
def frame1 (inp : FrameIn) (s : S1) : S1 × List Ev :=
  let a := shootBall1 inp s
  let s2 := physSteps1 a.1
  let c := handUpdate1 s2
  let d := drainPhase1 c.1
  let s5 := syncScore1 d.1
  (s5, a.2 ++ List.replicate 8 Ev.physStep ++ c.2 ++ d.2 ++ [Ev.syncScoreStart, Ev.render])

/-- Rev1 initial state after initializeGame: empty ball collection, hand
meshes at the defaults, hand collider handles 0 and 1, counters zero, the
world eventQueue never assigned. -/
def init1 : S1 :=
  { world := { gravity := ⟨0, -1 / 100, 0⟩, ballBodies := [], ballColliders := [],
               handBodyL := ⟨-1 / 2, 8 / 5, 0⟩, handBodyR := ⟨1 / 2, 8 / 5, 0⟩,
               eventQueue := none },
    balls := [], sceneBalls := [], lastShot := 0, savesCount := 0, goalsCount := 0,
    leftHandMesh := ⟨-1 / 2, 8 / 5, 0⟩, rightHandMesh := ⟨1 / 2, 8 / 5, 0⟩,
    leftHandCollider := some 0, rightHandCollider := some 1, nextId := 2 }

/-- One externally triggered transition of the Rev1 program: a frame of the
animate loop, a chat-triggered shootBall, or a pose callback. -/
inductive Step1 : S1 → S1 → Prop where
  | frame (inp : FrameIn) (s : S1) : Step1 s (frame1 inp s).1
  | shoot (inp : FrameIn) (s : S1) : Step1 s (shootBall1 inp s).1
  | pose (lm : Option (List Landmark)) (s : S1) : Step1 s (updatePlayerPosition1 lm s)

inductive Reachable1 : S1 → Prop where
  | init : Reachable1 init1
  | step {s t : S1} : Reachable1 s → Step1 s t → Reachable1 t

/- ------------------------------------------------------------------ -/
/- Rev2: src/unnamed/part_000                                         -/
/- ------------------------------------------------------------------ -/

/-- Rev2 game state: no counters exist in this revision. -/
structure S2 where
  world : World
  balls : List BallEnt
  sceneBalls : List Nat
  lastShot : Int
  leftHandMesh : Vec3
  rightHandMesh : Vec3
  leftHandCollider : Option Nat
  rightHandCollider : Option Nat
  nextId : Nat
deriving DecidableEq, Repr

/-- Rev2 shootBall: identical rate limiting and creation shape to Rev1
(the collider omits the density setter; material parameters do not enter
the model). -/
def shootBall2 (inp : FrameIn) (s : S2) : S2 × List Ev :=
  if inp.now - s.lastShot < SHOT_INTERVAL then (s, [Ev.shootCall])
  else
    let xPos := (inp.rx - 1 / 2) * 3
    let yPos := inp.ry * 2 + 1
    let spawn : Vec3 := ⟨xPos, yPos, 10⟩
    let targetX := (inp.tx - 1 / 2) * 14
    let targetY := inp.ty * 7
    let f0 : Vec3 := ⟨targetX - xPos, targetY - yPos, -10⟩
    let len := ratSqrt (f0.x ^ 2 + f0.y ^ 2 + f0.z ^ 2)
    let force : Vec3 := ⟨f0.x / len * ballImpulseMagnitude,
                         f0.y / len * ballImpulseMagnitude,
                         f0.z / len * ballImpulseMagnitude⟩
    let bid := s.nextId
    let body := Body.applyImpulse force
      { pos := spawn, linvel := Vec3.zero3, angvel := Vec3.zero3, invMass := inp.invMass }
    ({ s with
        world := { s.world with
                    ballBodies := s.world.ballBodies ++ [(bid, body)],
                    ballColliders := s.world.ballColliders ++ [bid] },
        balls := s.balls ++ [⟨bid, spawn⟩],
        sceneBalls := s.sceneBalls ++ [bid],
        lastShot := inp.now,
        nextId := bid + 1 }, [Ev.shootCall, Ev.ballSpawn])

/-- Rev2 updatePlayerPosition: the guard is the same as Rev1, but landmark
15 drives the left hand and landmark 16 the right hand, through
x * 10 - 5, (1 - y) * 4, constant z = 0. -/
def updatePlayerPosition2 (lm : Option (List Landmark)) (s : S2) : S2 :=
  match lm with
  | none => s
  | some l =>
    if h : l.length < 33 then s
    else
      let leftHand := l.get ⟨15, by omega⟩
      let rightHand := l.get ⟨16, by omega⟩
      { s with
          leftHandMesh := ⟨leftHand.x * 10 - 5, (1 - leftHand.y) * 4, 0⟩,
          rightHandMesh := ⟨rightHand.x * 10 - 5, (1 - rightHand.y) * 4, 0⟩ }

/-- Rev2 handleHandCollision: normalize the ball-minus-hand offset, zero
linear and angular velocity, clamp the z direction component to at least
0.5, apply the impulse of magnitude 25.  No counter exists to increment. -/
def handleHandCollision2 (s : S2) (bid : Nat) (handPos : Vec3) : S2 :=
  let ballPos := (World.getBody s.world bid).pos
  let d0 : Vec3 := ⟨ballPos.x - handPos.x, ballPos.y - handPos.y, ballPos.z - handPos.z⟩
  let len := ratSqrt (d0.x ^ 2 + d0.y ^ 2 + d0.z ^ 2)
  let dir : Vec3 := ⟨d0.x / len, d0.y / len, d0.z / len⟩
  let w1 := World.updateBody s.world bid (Body.setLinvel Vec3.zero3)
  let w2 := World.updateBody w1 bid (Body.setAngvel Vec3.zero3)
  let impulseMagnitude : ℚ := 25
  let minZComponent : ℚ := 1 / 2
  let zComponent := max (abs dir.z) minZComponent
  let w3 := World.updateBody w2 bid
    (Body.applyImpulse ⟨dir.x * impulseMagnitude,
                        dir.y * impulseMagnitude,
                        zComponent * impulseMagnitude⟩)
  { s with world := w3 }

/-- Rev2 physics phase: timestep 1/360, 4 substeps. -/
def physSteps2 (s : S2) : S2 :=
  { s with world := World.stepN 4 (1 / 360) s.world }

/-- Rev2 hand phase: collider.parent() yields a rigid-body object, so the
typeof-number guard of this revision fails and the phase only warns; no
kinematic target is written. -/
def handPhase2 (s : S2) : S2 × List Ev :=
  (s, [Ev.handPhase])

/-- Rev2 ball sync: every mesh takes its body translation (the rotation
copy does not enter the model). -/
def ballSync2 (s : S2) : S2 :=
  { s with balls := s.balls.map (fun b => { b with meshPos := (World.getBody s.world b.id).pos }) }

def collisionThreshold2 : ℚ := handColliderSize + 4 / 5

/-- The distance test of the Rev2 contact pass, embedded as the squared
comparison equivalent to Math.sqrt(distSq) < collisionThreshold2 (see
sqrt_lt_iff_sq_lt). -/
def hitHand (ballPos handPos : Vec3) : Bool :=
  decide (distSq ballPos handPos < collisionThreshold2 ^ 2)

/-- Rev2 contact pass, one ball: both hand distances are computed from the
current ball body translation and the current hand mesh positions before
either test fires, then the left test and the right test each independently
invoke the resolver. -/
def contactStep2 (s : S2) (b : BallEnt) : S2 × List Ev :=
  let ballPos := (World.getBody s.world b.id).pos
  let hitL := hitHand ballPos s.leftHandMesh
  let hitR := hitHand ballPos s.rightHandMesh
  let a := if hitL
    then (handleHandCollision2 s b.id s.leftHandMesh, [Ev.resolve b.id])
    else (s, ([] : List Ev))
  let c := if hitR
    then (handleHandCollision2 a.1 b.id a.1.rightHandMesh, [Ev.resolve b.id])
    else (a.1, ([] : List Ev))
  (c.1, a.2 ++ c.2)

/-- Rev2 contact pass over the live collection. -/
def contactGo2 (s : S2) : List BallEnt → S2 × List Ev
  | [] => (s, [])
  | b :: rest =>
    let r := contactGo2 (contactStep2 s b).1 rest
    (r.1, (contactStep2 s b).2 ++ r.2)

def contactPhase2 (s : S2) : S2 × List Ev :=
  let r := contactGo2 s s.balls
  (r.1, Ev.contactStart :: r.2)

/-- Rev2 cull filter: a ball whose mesh z fell below -10 loses mesh and
body together. -/
def cullGo2 (w : World) (scene : List Nat) : List BallEnt → World × List Nat × List BallEnt
  | [] => (w, scene, [])
  | b :: rest =>
    if b.meshPos.z < -10 then
      cullGo2 (w.removeRigidBody b.id) (removeId scene b.id) rest
    else
      let r := cullGo2 w scene rest
      (r.1, r.2.1, b :: r.2.2)

def cull2 (s : S2) : S2 :=
  let r := cullGo2 s.world s.sceneBalls s.balls
  { s with world := r.1, sceneBalls := r.2.1, balls := r.2.2 }

/-- Rev2 animate body: solver parameters, 4 physics substeps, hand phase,
ball sync, distance contact pass, rear cull, shootBall, render. -/
def frame2 (inp : FrameIn) (s : S2) : S2 × List Ev :=
  let s1 := physSteps2 s
  let b := handPhase2 s1
  let s3 := ballSync2 b.1
  let c := contactPhase2 s3
  let s5 := cull2 c.1
  let e := shootBall2 inp s5
  (e.1, List.replicate 4 Ev.physStep ++ b.2 ++ (Ev.syncStart :: (c.2 ++ (Ev.cullStart :: (e.2 ++ [Ev.render])))))

/-- Rev2 initial state: same scene defaults as Rev1; both hand colliders
are attached to the single kinematic player body of this revision. -/
def init2 : S2 :=
  { world := { gravity := ⟨0, -1 / 100, 0⟩, ballBodies := [], ballColliders := [],
               handBodyL := ⟨0, 3 / 4, 0⟩, handBodyR := ⟨0, 3 / 4, 0⟩,
               eventQueue := none },
    balls := [], sceneBalls := [], lastShot := 0,
    leftHandMesh := ⟨-1 / 2, 8 / 5, 0⟩, rightHandMesh := ⟨1 / 2, 8 / 5, 0⟩,
    leftHandCollider := some 0, rightHandCollider := some 1, nextId := 2 }

inductive Step2 : S2 → S2 → Prop where
  | frame (inp : FrameIn) (s : S2) : Step2 s (frame2 inp s).1
  | shoot (inp : FrameIn) (s : S2) : Step2 s (shootBall2 inp s).1
  | pose (lm : Option (List Landmark)) (s : S2) : Step2 s (updatePlayerPosition2 lm s)

inductive Reachable2 : S2 → Prop where
  | init : Reachable2 init2
  | step {s t : S2} : Reachable2 s → Step2 s t → Reachable2 t

/- ------------------------------------------------------------------ -/
/- Derived notions used by the claims                                 -/
/- ------------------------------------------------------------------ -/

/-- Goal decision of the Rev1 filter for one ball under a world. -/
def goalHit1 (w : World) (b : BallEnt) : Bool :=
  checkForGoal (World.getBody w b.id).pos

/-- Rear-cull decision of the Rev1 filter for one ball under a world. -/
def behindHit1 (w : World) (b : BallEnt) : Bool :=
  decide ((World.getBody w b.id).pos.z < -10)

/-- A ball the Rev1 filter keeps. -/
def keep1 (w : World) (b : BallEnt) : Bool :=
  !goalHit1 w b && !behindHit1 w b

/-- Mesh sync applied to a kept ball. -/
def updMesh1 (w : World) (b : BallEnt) : BallEnt :=
  { b with meshPos := (World.getBody w b.id).pos }

/-- The Rev2 contact pass invoked the resolver on this ball id during the
frame. -/
def resolvedIn (s : S2) (inp : FrameIn) (bid : Nat) : Prop :=
  Ev.resolve bid ∈ (frame2 inp s).2

instance (s : S2) (inp : FrameIn) (bid : Nat) : Decidable (resolvedIn s inp bid) := by
  unfold resolvedIn; infer_instance

/-- All of a occur before all of b: after any occurrence of b the list holds
no further a. -/
def phaseBefore (a b : Ev) : List Ev → Bool
  | [] => true
  | x :: xs => if x = b then !(decide (a ∈ xs)) && phaseBefore a b xs
               else phaseBefore a b xs

/-- The no-orphan alignment of Rev1: the scene ball meshes, the world ball
bodies and the world ball colliders are exactly the live collection, in
order. -/
def Aligned1 (s : S1) : Prop :=
  s.sceneBalls = IdsOf s.balls ∧
  s.world.ballBodies.map Prod.fst = IdsOf s.balls ∧
  s.world.ballColliders = IdsOf s.balls

instance (s : S1) : Decidable (Aligned1 s) := by unfold Aligned1; infer_instance

/-- The no-orphan alignment of Rev2. -/
def Aligned2 (s : S2) : Prop :=
  s.sceneBalls = IdsOf s.balls ∧
  s.world.ballBodies.map Prod.fst = IdsOf s.balls ∧
  s.world.ballColliders = IdsOf s.balls

instance (s : S2) : Decidable (Aligned2 s) := by unfold Aligned2; infer_instance

/-- Full Rev1 structural invariant: alignment, distinct handles, handles
below the allocation counter. -/
def Inv1 (s : S1) : Prop :=
  Aligned1 s ∧ (IdsOf s.balls).Nodup ∧ ∀ j ∈ IdsOf s.balls, j < s.nextId

/-- Full Rev2 structural invariant. -/
def Inv2 (s : S2) : Prop :=
  Aligned2 s ∧ (IdsOf s.balls).Nodup ∧ ∀ j ∈ IdsOf s.balls, j < s.nextId

/-- The Rev2 state at the moment the contact pass reads positions: after
the physics substeps, the hand phase and the ball sync of the same frame. -/
def midState2 (s : S2) : S2 :=
  ballSync2 (handPhase2 (physSteps2 s)).1

/-- The geometric contact condition of the Rev2 pass for one ball: within
the threshold of the left or the right hand mesh. -/
def contactHit (s : S2) (b : BallEnt) : Bool :=
  hitHand (World.getBody s.world b.id).pos s.leftHandMesh ||
  hitHand (World.getBody s.world b.id).pos s.rightHandMesh

/-- The cull decision of Rev2 keeps a ball whose mesh z is not behind the
goal. -/
def keep2 (b : BallEnt) : Bool := !(decide (b.meshPos.z < -10))

/- ------------------------------------------------------------------ -/
/- Concrete states used to instantiate the claims                     -/
/- ------------------------------------------------------------------ -/

/-- A frame input with the clock at 0 and the random draws at 0. -/
def frameIn0 : FrameIn := ⟨0, 0, 0, 0, 0, 1⟩

/-- Rev1 state holding one ball of handle 2 at (1, 0, 0) with nonzero
linear and angular velocity. -/
def cexC1a : S1 :=
  { init1 with
      balls := [⟨2, ⟨1, 0, 0⟩⟩],
      sceneBalls := [2],
      world := { init1.world with
                   ballBodies := [(2, ⟨⟨1, 0, 0⟩, ⟨5, 5, -5⟩, ⟨1, 1, 1⟩, 1⟩)],
                   ballColliders := [2] } }

/-- Rev1 state holding one ball of handle 2 at (0, 1, 0). -/
def cexC1b : S1 :=
  { init1 with
      balls := [⟨2, ⟨0, 1, 0⟩⟩],
      sceneBalls := [2],
      world := { init1.world with
                   ballBodies := [(2, ⟨⟨0, 1, 0⟩, ⟨5, 5, -5⟩, ⟨1, 1, 1⟩, 1⟩)],
                   ballColliders := [2] } }

/-- Rev2 state holding one resting ball of handle 2 at (-5/2, 8/5, 0):
within the 2.3 contact threshold of the left hand mesh at (-1/2, 8/5, 0)
and outside that of the right hand mesh. -/
def cex4State : S2 :=
  { init2 with
      balls := [⟨2, ⟨-5 / 2, 8 / 5, 0⟩⟩],
      sceneBalls := [2],
      world := { init2.world with
                   ballBodies := [(2, ⟨⟨-5 / 2, 8 / 5, 0⟩, Vec3.zero3, Vec3.zero3, 1⟩)],
                   ballColliders := [2] } }

/-- Rev1 state holding one ball of handle 2 inside the goal zone. -/
def wit6State : S1 :=
  { init1 with
      balls := [⟨2, ⟨0, 3, 0⟩⟩],
      sceneBalls := [2],
      world := { init1.world with
                   ballBodies := [(2, ⟨⟨0, 3, 0⟩, Vec3.zero3, Vec3.zero3, 1⟩)],
                   ballColliders := [2] } }

/-- Rev1 state holding one ball of handle 2 behind the rear threshold. -/
def wit7State : S1 :=
  { init1 with
      balls := [⟨2, ⟨0, 3, -11⟩⟩],
      sceneBalls := [2],
      world := { init1.world with
                   ballBodies := [(2, ⟨⟨0, 3, -11⟩, Vec3.zero3, Vec3.zero3, 1⟩)],
                   ballColliders := [2] } }

/-- Rev2 state holding one ball of handle 2 whose mesh is behind the rear
threshold. -/
def wit7State2 : S2 :=
  { init2 with
      balls := [⟨2, ⟨0, 3, -11⟩⟩],
      sceneBalls := [2],
      world := { init2.world with
                   ballBodies := [(2, ⟨⟨0, 3, -11⟩, Vec3.zero3, Vec3.zero3, 1⟩)],
                   ballColliders := [2] } }

/-- A 33-entry landmark list whose i-th entry has x = i. -/
def wit10Lms : List Landmark :=
  (List.range 33).map (fun i => ⟨((i : Int) : ℚ), 0, 0, none⟩)

/- ------------------------------------------------------------------ -/
/- Helper lemmas: handle lists                                        -/
/- ------------------------------------------------------------------ -/

theorem findBody_eq_none {l : List (Nat × Body)} {bid : Nat}
    (h : bid ∉ l.map Prod.fst) : findBody l bid = none := by
  induction l with
  | nil => rfl
  | cons p rest ih =>
    simp only [List.map_cons, List.mem_cons] at h
    push_neg at h
    have h1 : ¬ p.1 = bid := fun hh => h.1 hh.symm
    simp only [findBody, if_neg h1]
    exact ih h.2

theorem map_fst_removeBodyEntry (l : List (Nat × Body)) (bid : Nat) :
    (removeBodyEntry l bid).map Prod.fst = removeId (l.map Prod.fst) bid := by
  induction l with
  | nil => rfl
  | cons p rest ih =>
    by_cases h : p.1 = bid
    · simp [removeBodyEntry, removeId, h, ih]
    · simp [removeBodyEntry, removeId, h, ih]

theorem removeId_of_not_mem {l : List Nat} {bid : Nat} (h : bid ∉ l) :
    removeId l bid = l := by
  induction l with
  | nil => rfl
  | cons i rest ih =>
    simp only [List.mem_cons] at h
    push_neg at h
    have h1 : ¬ i = bid := fun hh => h.1 hh.symm
    simp [removeId, h1, ih h.2]

theorem removeId_append (l1 l2 : List Nat) (bid : Nat) :
    removeId (l1 ++ l2) bid = removeId l1 bid ++ removeId l2 bid := by
  induction l1 with
  | nil => rfl
  | cons i rest ih => by_cases h : i = bid <;> simp [removeId, h, ih]

theorem removeId_middle {pre rest : List Nat} {bid : Nat}
    (h1 : bid ∉ pre) (h2 : bid ∉ rest) :
    removeId (pre ++ bid :: rest) bid = pre ++ rest := by
  rw [removeId_append, removeId_of_not_mem h1]
  simp [removeId, removeId_of_not_mem h2]

theorem findBody_removeBodyEntry_ne (l : List (Nat × Body)) {bid j : Nat}
    (h : j ≠ bid) :
    findBody (removeBodyEntry l bid) j = findBody l j := by
  induction l with
  | nil => rfl
  | cons p rest ih =>
    have hbj : ¬ bid = j := fun hh => h hh.symm
    by_cases hp : p.1 = bid
    · simp [removeBodyEntry, hp, findBody, hbj, ih]
    · by_cases pj : p.1 = j <;> simp [removeBodyEntry, hp, findBody, pj, h, ih]

theorem getBody_removeRigidBody_ne (w : World) {bid j : Nat} (h : j ≠ bid) :
    (w.removeRigidBody bid).getBody j = w.getBody j := by
  unfold World.getBody World.removeRigidBody
  simp [findBody_removeBodyEntry_ne _ h]

theorem eventQueue_removeRigidBody (w : World) (bid : Nat) :
    (w.removeRigidBody bid).eventQueue = w.eventQueue := rfl

theorem map_fst_updateBody (w : World) (bid : Nat) (f : Body → Body) :
    (w.updateBody bid f).ballBodies.map Prod.fst = w.ballBodies.map Prod.fst := by
  unfold World.updateBody
  simp only [List.map_map]
  congr 1
  funext p
  by_cases h : p.1 = bid <;> simp [Function.comp, h]

theorem ballColliders_updateBody (w : World) (bid : Nat) (f : Body → Body) :
    (w.updateBody bid f).ballColliders = w.ballColliders := rfl

theorem eventQueue_updateBody (w : World) (bid : Nat) (f : Body → Body) :
    (w.updateBody bid f).eventQueue = w.eventQueue := rfl

theorem findBody_updateBody_self (w : World) (bid : Nat) (f : Body → Body) :
    findBody (w.updateBody bid f).ballBodies bid = (findBody w.ballBodies bid).map f := by
  unfold World.updateBody
  simp only []
  induction w.ballBodies with
  | nil => rfl
  | cons p rest ih => by_cases h : p.1 = bid <;> simp [findBody, h, ih]

theorem findBody_updateBody_ne (w : World) {bid j : Nat} (f : Body → Body)
    (h : j ≠ bid) :
    findBody (w.updateBody bid f).ballBodies j = findBody w.ballBodies j := by
  unfold World.updateBody
  simp only []
  induction w.ballBodies with
  | nil => rfl
  | cons p rest ih =>
    have hbj : ¬ bid = j := fun hh => h hh.symm
    by_cases hp : p.1 = bid
    · simp [findBody, hp, hbj, ih]
    · by_cases pj : p.1 = j <;> simp [findBody, hp, pj, h, ih]

theorem map_fst_step (dt : ℚ) (w : World) :
    (World.step dt w).ballBodies.map Prod.fst = w.ballBodies.map Prod.fst := by
  unfold World.step
  simp only [List.map_map]
  rfl

theorem ballColliders_step (dt : ℚ) (w : World) :
    (World.step dt w).ballColliders = w.ballColliders := rfl

theorem eventQueue_step (dt : ℚ) (w : World) :
    (World.step dt w).eventQueue = w.eventQueue := rfl

theorem map_fst_stepN (n : Nat) (dt : ℚ) (w : World) :
    (World.stepN n dt w).ballBodies.map Prod.fst = w.ballBodies.map Prod.fst := by
  induction n generalizing w with
  | zero => rfl
  | succ k ih => rw [World.stepN, ih, map_fst_step]

theorem ballColliders_stepN (n : Nat) (dt : ℚ) (w : World) :
    (World.stepN n dt w).ballColliders = w.ballColliders := by
  induction n generalizing w with
  | zero => rfl
  | succ k ih => rw [World.stepN, ih, ballColliders_step]

theorem eventQueue_stepN (n : Nat) (dt : ℚ) (w : World) :
    (World.stepN n dt w).eventQueue = w.eventQueue := by
  induction n generalizing w with
  | zero => rfl
  | succ k ih => rw [World.stepN, ih, eventQueue_step]

theorem gravity_stepN (n : Nat) (dt : ℚ) (w : World) :
    (World.stepN n dt w).gravity = w.gravity := by
  induction n generalizing w with
  | zero => rfl
  | succ k ih => rw [World.stepN, ih]; rfl

/- ------------------------------------------------------------------ -/
/- Helper lemmas: phase ordering                                      -/
/- ------------------------------------------------------------------ -/

theorem phaseBefore_of_not_b {a b : Ev} {l : List Ev} (h : b ∉ l) :
    phaseBefore a b l = true := by
  induction l with
  | nil => rfl
  | cons x xs ih =>
    simp only [List.mem_cons] at h
    push_neg at h
    have h1 : ¬ x = b := fun hh => h.1 hh.symm
    simp [phaseBefore, h1, ih h.2]

theorem phaseBefore_of_not_a {a b : Ev} {l : List Ev} (h : a ∉ l) :
    phaseBefore a b l = true := by
  induction l with
  | nil => rfl
  | cons x xs ih =>
    simp only [List.mem_cons] at h
    push_neg at h
    by_cases hx : x = b
    · simp [phaseBefore, hx, h.2, ih h.2]
    · simp [phaseBefore, hx, ih h.2]

theorem phaseBefore_append {a b : Ev} {l1 l2 : List Ev}
    (h1 : phaseBefore a b l1 = true) (h2 : b ∈ l1 → a ∉ l2)
    (h3 : phaseBefore a b l2 = true) :
    phaseBefore a b (l1 ++ l2) = true := by
  induction l1 with
  | nil => simpa using h3
  | cons x xs ih =>
    by_cases hx : x = b
    · simp only [phaseBefore, if_pos hx, Bool.and_eq_true, Bool.not_eq_true',
        decide_eq_false_iff_not] at h1
      have haxs : a ∉ xs := h1.1
      have hal2 : a ∉ l2 := h2 (by simp [hx])
      have : a ∉ xs ++ l2 := by
        simp only [List.mem_append]
        push_neg
        exact ⟨haxs, hal2⟩
      simp only [List.cons_append, phaseBefore, if_pos hx, Bool.and_eq_true,
        Bool.not_eq_true', decide_eq_false_iff_not]
      exact ⟨this, ih h1.2 (fun _ => hal2)⟩
    · simp only [phaseBefore, if_neg hx] at h1
      simp only [List.cons_append, phaseBefore, if_neg hx]
      exact ih h1 (fun hb => h2 (List.mem_cons_of_mem _ hb))

theorem countP_eq_of {α : Type} {l : List α} {p q : α → Bool}
    (h : ∀ x ∈ l, p x = q x) : l.countP p = l.countP q := by
  induction l with
  | nil => rfl
  | cons a t ih =>
    rw [List.countP_cons, List.countP_cons, h a (by simp)]
    rw [ih (fun x hx => h x (by simp [hx]))]

/- ------------------------------------------------------------------ -/
/- Helper lemmas: stability of per-ball decisions under removal       -/
/- ------------------------------------------------------------------ -/

theorem goalHit1_remove (w : World) {bid : Nat} {b : BallEnt} (h : b.id ≠ bid) :
    goalHit1 (w.removeRigidBody bid) b = goalHit1 w b := by
  unfold goalHit1
  rw [getBody_removeRigidBody_ne _ h]

theorem behindHit1_remove (w : World) {bid : Nat} {b : BallEnt} (h : b.id ≠ bid) :
    behindHit1 (w.removeRigidBody bid) b = behindHit1 w b := by
  unfold behindHit1
  rw [getBody_removeRigidBody_ne _ h]

theorem keep1_remove (w : World) {bid : Nat} {b : BallEnt} (h : b.id ≠ bid) :
    keep1 (w.removeRigidBody bid) b = keep1 w b := by
  unfold keep1
  rw [goalHit1_remove _ h, behindHit1_remove _ h]

theorem updMesh1_remove (w : World) {bid : Nat} {b : BallEnt} (h : b.id ≠ bid) :
    updMesh1 (w.removeRigidBody bid) b = updMesh1 w b := by
  unfold updMesh1
  rw [getBody_removeRigidBody_ne _ h]

/- ------------------------------------------------------------------ -/
/- Helper lemmas: what each phase leaves untouched                    -/
/- ------------------------------------------------------------------ -/

theorem handleHandCollision1_structure (s : S1) (bid : Nat) (hp : Vec3) :
    (handleHandCollision1 s bid hp).balls = s.balls ∧
    (handleHandCollision1 s bid hp).sceneBalls = s.sceneBalls ∧
    (handleHandCollision1 s bid hp).world.ballBodies.map Prod.fst
      = s.world.ballBodies.map Prod.fst ∧
    (handleHandCollision1 s bid hp).world.ballColliders = s.world.ballColliders ∧
    (handleHandCollision1 s bid hp).nextId = s.nextId ∧
    (handleHandCollision1 s bid hp).world.eventQueue = s.world.eventQueue ∧
    (handleHandCollision1 s bid hp).goalsCount = s.goalsCount ∧
    (handleHandCollision1 s bid hp).lastShot = s.lastShot ∧
    (handleHandCollision1 s bid hp).leftHandCollider = s.leftHandCollider ∧
    (handleHandCollision1 s bid hp).rightHandCollider = s.rightHandCollider := by
  unfold handleHandCollision1
  refine ⟨rfl, rfl, ?_, rfl, rfl, rfl, rfl, rfl, rfl, rfl⟩
  simp [map_fst_updateBody]

theorem drainStep1_state (s : S1) (e : REvent) :
    (drainStep1 s e).1 = s ∨
    ∃ bid hp, (drainStep1 s e).1 = handleHandCollision1 s bid hp := by
  unfold drainStep1
  split
  · split
    · split
      · right; exact ⟨_, _, rfl⟩
      · left; rfl
    · left; rfl
  · left; rfl

theorem drainStep1_events (s : S1) (e : REvent) :
    (drainStep1 s e).2 = [] ∨ ∃ bid, (drainStep1 s e).2 = [Ev.saveResolve bid] := by
  unfold drainStep1
  split
  · split
    · split
      · right; exact ⟨_, rfl⟩
      · left; rfl
    · left; rfl
  · left; rfl

theorem drainLoop1_structure (q : List REvent) : ∀ s : S1,
    (drainLoop1 s q).1.balls = s.balls ∧
    (drainLoop1 s q).1.sceneBalls = s.sceneBalls ∧
    (drainLoop1 s q).1.world.ballBodies.map Prod.fst
      = s.world.ballBodies.map Prod.fst ∧
    (drainLoop1 s q).1.world.ballColliders = s.world.ballColliders ∧
    (drainLoop1 s q).1.nextId = s.nextId ∧
    (drainLoop1 s q).1.world.eventQueue = s.world.eventQueue := by
  induction q with
  | nil => exact fun s => ⟨rfl, rfl, rfl, rfl, rfl, rfl⟩
  | cons e rest ih =>
    intro s
    have hstep : (drainStep1 s e).1.balls = s.balls ∧
        (drainStep1 s e).1.sceneBalls = s.sceneBalls ∧
        (drainStep1 s e).1.world.ballBodies.map Prod.fst
          = s.world.ballBodies.map Prod.fst ∧
        (drainStep1 s e).1.world.ballColliders = s.world.ballColliders ∧
        (drainStep1 s e).1.nextId = s.nextId ∧
        (drainStep1 s e).1.world.eventQueue = s.world.eventQueue := by
      rcases drainStep1_state s e with h | ⟨bid, hp, h⟩
      · rw [h]; exact ⟨rfl, rfl, rfl, rfl, rfl, rfl⟩
      · rw [h]
        have hh := handleHandCollision1_structure s bid hp
        exact ⟨hh.1, hh.2.1, hh.2.2.1, hh.2.2.2.1, hh.2.2.2.2.1, hh.2.2.2.2.2.1⟩
    have hrec := ih (drainStep1 s e).1
    simp only [drainLoop1]
    exact ⟨hrec.1.trans hstep.1, hrec.2.1.trans hstep.2.1,
           hrec.2.2.1.trans hstep.2.2.1, hrec.2.2.2.1.trans hstep.2.2.2.1,
           hrec.2.2.2.2.1.trans hstep.2.2.2.2.1,
           hrec.2.2.2.2.2.trans hstep.2.2.2.2.2⟩

theorem map_fst_removeRigidBody (w : World) (bid : Nat) :
    (w.removeRigidBody bid).ballBodies.map Prod.fst
      = removeId (w.ballBodies.map Prod.fst) bid :=
  map_fst_removeBodyEntry _ _

theorem ballColliders_removeRigidBody (w : World) (bid : Nat) :
    (w.removeRigidBody bid).ballColliders = removeId w.ballColliders bid := rfl

theorem IdsOf_map_updMesh (w : World) (l : List BallEnt) :
    IdsOf (l.map (updMesh1 w)) = IdsOf l := by
  simp only [IdsOf, List.map_map]
  rfl

/-- Splitting a Nodup list around a distinguished head of the suffix. -/
theorem nodup_split {pre ids : List Nat} {a : Nat}
    (hd : (pre ++ a :: ids).Nodup) :
    a ∉ pre ∧ a ∉ ids ∧ (pre ++ ids).Nodup := by
  have h1 := List.nodup_append.mp hd
  have hcons := List.nodup_cons.mp h1.2.1
  refine ⟨fun hmem => h1.2.2 hmem (List.mem_cons_self a ids), hcons.1, ?_⟩
  exact List.nodup_append.mpr
    ⟨h1.1, hcons.2, fun x hx hx2 => h1.2.2 hx (List.mem_cons_of_mem _ hx2)⟩

/-- Characterization of the Rev1 combined sync / goal / cull pass: the
kept balls are exactly the filter by keep1 with their meshes synced, the
goal counter gains exactly the number of balls passing checkForGoal, and
scene, bodies and colliders all shrink to the kept handles. -/
theorem syncScoreGo_spec (l : List BallEnt) :
    ∀ (w : World) (scene : List Nat) (goals : Nat) (pre : List Nat),
    scene = pre ++ IdsOf l →
    w.ballBodies.map Prod.fst = pre ++ IdsOf l →
    w.ballColliders = pre ++ IdsOf l →
    (pre ++ IdsOf l).Nodup →
    (syncScoreGo w scene goals l).balls = (l.filter (keep1 w)).map (updMesh1 w) ∧
    (syncScoreGo w scene goals l).goals = goals + l.countP (goalHit1 w) ∧
    (syncScoreGo w scene goals l).scene = pre ++ IdsOf (l.filter (keep1 w)) ∧
    (syncScoreGo w scene goals l).world.ballBodies.map Prod.fst
      = pre ++ IdsOf (l.filter (keep1 w)) ∧
    (syncScoreGo w scene goals l).world.ballColliders
      = pre ++ IdsOf (l.filter (keep1 w)) ∧
    (syncScoreGo w scene goals l).world.eventQueue = w.eventQueue := by
  induction l with
  | nil =>
    intro w scene goals pre hs hw hc _
    exact ⟨rfl, by simp [syncScoreGo], hs, hw, hc, rfl⟩
  | cons b rest ih =>
    intro w scene goals pre hs hw hc hd
    have hids : IdsOf (b :: rest) = b.id :: IdsOf rest := rfl
    rw [hids] at hs hw hc hd
    obtain ⟨hbpre, hbrest, hnd⟩ := nodup_split hd
    have hxb : ∀ x ∈ rest, x.id ≠ b.id := by
      intro x hx he
      exact hbrest (he ▸ List.mem_map_of_mem (fun b => b.id) hx)
    cases hg : checkForGoal (World.getBody w b.id).pos with
    | true =>
      have hkeepb : keep1 w b = false := by simp [keep1, goalHit1, hg]
      have hgoalb : goalHit1 w b = true := hg
      have hs' : removeId scene b.id = pre ++ IdsOf rest := by
        rw [hs, removeId_middle hbpre hbrest]
      have hw' : (w.removeRigidBody b.id).ballBodies.map Prod.fst
          = pre ++ IdsOf rest := by
        rw [map_fst_removeRigidBody, hw, removeId_middle hbpre hbrest]
      have hc' : (w.removeRigidBody b.id).ballColliders = pre ++ IdsOf rest := by
        rw [ballColliders_removeRigidBody, hc, removeId_middle hbpre hbrest]
      have hrec := ih (w.removeRigidBody b.id) (removeId scene b.id)
        (goals + 1) pre hs' hw' hc' hnd
      have hfilter : rest.filter (keep1 (w.removeRigidBody b.id))
          = rest.filter (keep1 w) :=
        List.filter_congr (fun x hx => keep1_remove w (hxb x hx))
      have hmapm : (rest.filter (keep1 w)).map (updMesh1 (w.removeRigidBody b.id))
          = (rest.filter (keep1 w)).map (updMesh1 w) :=
        List.map_congr_left
          (fun x hx => updMesh1_remove w (hxb x (List.mem_of_mem_filter hx)))
      have hcount : rest.countP (goalHit1 (w.removeRigidBody b.id))
          = rest.countP (goalHit1 w) :=
        countP_eq_of (fun x hx => goalHit1_remove w (hxb x hx))
      have hgo : syncScoreGo w scene goals (b :: rest)
          = syncScoreGo (w.removeRigidBody b.id) (removeId scene b.id) (goals + 1) rest := by
        simp only [syncScoreGo, hg, if_true]
      rw [hgo, List.filter_cons_of_neg (by simp [hkeepb]),
        List.countP_cons_of_pos _ _ hgoalb]
      rw [hfilter, hmapm, hcount] at hrec
      refine ⟨hrec.1, ?_, hrec.2.2.1, hrec.2.2.2.1, hrec.2.2.2.2.1, hrec.2.2.2.2.2⟩
      rw [hrec.2.1]
      omega
    | false =>
      by_cases hz : (World.getBody w b.id).pos.z < -10
      · have hkeepb : keep1 w b = false := by
          simp [keep1, goalHit1, behindHit1, hg, hz]
        have hgoalb : goalHit1 w b = false := hg
        have hs' : removeId scene b.id = pre ++ IdsOf rest := by
          rw [hs, removeId_middle hbpre hbrest]
        have hw' : (w.removeRigidBody b.id).ballBodies.map Prod.fst
            = pre ++ IdsOf rest := by
          rw [map_fst_removeRigidBody, hw, removeId_middle hbpre hbrest]
        have hc' : (w.removeRigidBody b.id).ballColliders = pre ++ IdsOf rest := by
          rw [ballColliders_removeRigidBody, hc, removeId_middle hbpre hbrest]
        have hrec := ih (w.removeRigidBody b.id) (removeId scene b.id)
          goals pre hs' hw' hc' hnd
        have hfilter : rest.filter (keep1 (w.removeRigidBody b.id))
            = rest.filter (keep1 w) :=
          List.filter_congr (fun x hx => keep1_remove w (hxb x hx))
        have hmapm : (rest.filter (keep1 w)).map (updMesh1 (w.removeRigidBody b.id))
            = (rest.filter (keep1 w)).map (updMesh1 w) :=
          List.map_congr_left
            (fun x hx => updMesh1_remove w (hxb x (List.mem_of_mem_filter hx)))
        have hcount : rest.countP (goalHit1 (w.removeRigidBody b.id))
            = rest.countP (goalHit1 w) :=
          countP_eq_of (fun x hx => goalHit1_remove w (hxb x hx))
        have hgo : syncScoreGo w scene goals (b :: rest)
            = syncScoreGo (w.removeRigidBody b.id) (removeId scene b.id) goals rest := by
          simp only [syncScoreGo, hg, Bool.false_eq_true, if_false, if_pos hz]
        rw [hgo, List.filter_cons_of_neg (by simp [hkeepb]),
          List.countP_cons_of_neg _ _ (by simp [hgoalb])]
        rw [hfilter, hmapm, hcount] at hrec
        exact hrec
      · have hkeepb : keep1 w b = true := by
          simp [keep1, goalHit1, behindHit1, hg, hz]
        have hgoalb : goalHit1 w b = false := hg
        have happ : pre ++ b.id :: IdsOf rest = (pre ++ [b.id]) ++ IdsOf rest :=
          List.append_cons pre b.id (IdsOf rest)
        rw [happ] at hs hw hc hd
        have hrec := ih w scene goals (pre ++ [b.id]) hs hw hc hd
        have hgo : syncScoreGo w scene goals (b :: rest)
            = ⟨(syncScoreGo w scene goals rest).world,
               (syncScoreGo w scene goals rest).scene,
               (syncScoreGo w scene goals rest).goals,
               { b with meshPos := (World.getBody w b.id).pos }
                 :: (syncScoreGo w scene goals rest).balls⟩ := by
          simp only [syncScoreGo, hg, Bool.false_eq_true, if_false, if_neg hz]
        rw [hgo, List.filter_cons_of_pos (by simp [hkeepb]),
          List.countP_cons_of_neg _ _ (by simp [hgoalb])]
        have hcons : IdsOf ({ b with meshPos := (World.getBody w b.id).pos }
            :: rest.filter (keep1 w)) = b.id :: IdsOf (rest.filter (keep1 w)) := rfl
        refine ⟨?_, hrec.2.1, ?_, ?_, ?_, hrec.2.2.2.2.2⟩
        · simp only [List.map_cons, hrec.1]
          rfl
        · rw [hrec.2.2.1]
          exact (List.append_cons pre b.id (IdsOf (rest.filter (keep1 w)))).symm
        · rw [hrec.2.2.2.1]
          exact (List.append_cons pre b.id (IdsOf (rest.filter (keep1 w)))).symm
        · rw [hrec.2.2.2.2.1]
          exact (List.append_cons pre b.id (IdsOf (rest.filter (keep1 w)))).symm

/-- Characterization of the Rev2 cull filter. -/
theorem cullGo2_spec (l : List BallEnt) :
    ∀ (w : World) (scene : List Nat) (pre : List Nat),
    scene = pre ++ IdsOf l →
    w.ballBodies.map Prod.fst = pre ++ IdsOf l →
    w.ballColliders = pre ++ IdsOf l →
    (pre ++ IdsOf l).Nodup →
    (cullGo2 w scene l).2.2 = l.filter keep2 ∧
    (cullGo2 w scene l).2.1 = pre ++ IdsOf (l.filter keep2) ∧
    (cullGo2 w scene l).1.ballBodies.map Prod.fst = pre ++ IdsOf (l.filter keep2) ∧
    (cullGo2 w scene l).1.ballColliders = pre ++ IdsOf (l.filter keep2) ∧
    (cullGo2 w scene l).1.eventQueue = w.eventQueue := by
  induction l with
  | nil =>
    intro w scene pre hs hw hc _
    exact ⟨rfl, hs, hw, hc, rfl⟩
  | cons b rest ih =>
    intro w scene pre hs hw hc hd
    have hids : IdsOf (b :: rest) = b.id :: IdsOf rest := rfl
    rw [hids] at hs hw hc hd
    obtain ⟨hbpre, hbrest, hnd⟩ := nodup_split hd
    by_cases hz : b.meshPos.z < -10
    · have hkeepb : keep2 b = false := by simp [keep2, hz]
      have hs' : removeId scene b.id = pre ++ IdsOf rest := by
        rw [hs, removeId_middle hbpre hbrest]
      have hw' : (w.removeRigidBody b.id).ballBodies.map Prod.fst
          = pre ++ IdsOf rest := by
        rw [map_fst_removeRigidBody, hw, removeId_middle hbpre hbrest]
      have hc' : (w.removeRigidBody b.id).ballColliders = pre ++ IdsOf rest := by
        rw [ballColliders_removeRigidBody, hc, removeId_middle hbpre hbrest]
      have hrec := ih (w.removeRigidBody b.id) (removeId scene b.id) pre hs' hw' hc' hnd
      have hgo : cullGo2 w scene (b :: rest)
          = cullGo2 (w.removeRigidBody b.id) (removeId scene b.id) rest := by
        simp only [cullGo2, if_pos hz]
      rw [hgo, List.filter_cons_of_neg (by simp [hkeepb])]
      exact hrec
    · have hkeepb : keep2 b = true := by simp [keep2, hz]
      have happ : pre ++ b.id :: IdsOf rest = (pre ++ [b.id]) ++ IdsOf rest :=
        List.append_cons pre b.id (IdsOf rest)
      rw [happ] at hs hw hc hd
      have hrec := ih w scene (pre ++ [b.id]) hs hw hc hd
      have hgo : cullGo2 w scene (b :: rest)
          = ((cullGo2 w scene rest).1, (cullGo2 w scene rest).2.1,
             b :: (cullGo2 w scene rest).2.2) := by
        simp only [cullGo2, if_neg hz]
      rw [hgo, List.filter_cons_of_pos (by simp [hkeepb])]
      refine ⟨?_, ?_, ?_, ?_, hrec.2.2.2.2⟩
      · simp only [hrec.1]
      · rw [hrec.2.1]
        exact (List.append_cons pre b.id (IdsOf (rest.filter keep2))).symm
      · rw [hrec.2.2.1]
        exact (List.append_cons pre b.id (IdsOf (rest.filter keep2))).symm
      · rw [hrec.2.2.2.1]
        exact (List.append_cons pre b.id (IdsOf (rest.filter keep2))).symm

/- ------------------------------------------------------------------ -/
/- Helper lemmas: Rev2 contact pass                                   -/
/- ------------------------------------------------------------------ -/

theorem handleHandCollision2_structure (s : S2) (bid : Nat) (hp : Vec3) :
    (handleHandCollision2 s bid hp).balls = s.balls ∧
    (handleHandCollision2 s bid hp).sceneBalls = s.sceneBalls ∧
    (handleHandCollision2 s bid hp).world.ballBodies.map Prod.fst
      = s.world.ballBodies.map Prod.fst ∧
    (handleHandCollision2 s bid hp).world.ballColliders = s.world.ballColliders ∧
    (handleHandCollision2 s bid hp).nextId = s.nextId ∧
    (handleHandCollision2 s bid hp).lastShot = s.lastShot ∧
    (handleHandCollision2 s bid hp).leftHandMesh = s.leftHandMesh ∧
    (handleHandCollision2 s bid hp).rightHandMesh = s.rightHandMesh ∧
    (handleHandCollision2 s bid hp).leftHandCollider = s.leftHandCollider ∧
    (handleHandCollision2 s bid hp).rightHandCollider = s.rightHandCollider ∧
    (handleHandCollision2 s bid hp).world.eventQueue = s.world.eventQueue := by
  unfold handleHandCollision2
  refine ⟨rfl, rfl, ?_, rfl, rfl, rfl, rfl, rfl, rfl, rfl, rfl⟩
  simp [map_fst_updateBody]

theorem getBody_pos_handleHandCollision2 (s : S2) (bid : Nat) (hp : Vec3) (j : Nat) :
    (World.getBody (handleHandCollision2 s bid hp).world j).pos
      = (World.getBody s.world j).pos := by
  unfold handleHandCollision2
  simp only []
  by_cases hj : j = bid
  · subst hj
    unfold World.getBody
    rw [findBody_updateBody_self, findBody_updateBody_self, findBody_updateBody_self]
    cases findBody s.world.ballBodies j with
    | none => rfl
    | some bd => rfl
  · unfold World.getBody
    rw [findBody_updateBody_ne _ _ hj, findBody_updateBody_ne _ _ hj,
        findBody_updateBody_ne _ _ hj]

theorem handleHandCollision2_balls (s : S2) (bid : Nat) (hp : Vec3) :
    (handleHandCollision2 s bid hp).balls = s.balls := rfl

theorem handleHandCollision2_scene (s : S2) (bid : Nat) (hp : Vec3) :
    (handleHandCollision2 s bid hp).sceneBalls = s.sceneBalls := rfl

theorem handleHandCollision2_colliders (s : S2) (bid : Nat) (hp : Vec3) :
    (handleHandCollision2 s bid hp).world.ballColliders = s.world.ballColliders := rfl

theorem handleHandCollision2_nextId (s : S2) (bid : Nat) (hp : Vec3) :
    (handleHandCollision2 s bid hp).nextId = s.nextId := rfl

theorem handleHandCollision2_lastShot (s : S2) (bid : Nat) (hp : Vec3) :
    (handleHandCollision2 s bid hp).lastShot = s.lastShot := rfl

theorem handleHandCollision2_leftMesh (s : S2) (bid : Nat) (hp : Vec3) :
    (handleHandCollision2 s bid hp).leftHandMesh = s.leftHandMesh := rfl

theorem handleHandCollision2_rightMesh (s : S2) (bid : Nat) (hp : Vec3) :
    (handleHandCollision2 s bid hp).rightHandMesh = s.rightHandMesh := rfl

theorem handleHandCollision2_queue (s : S2) (bid : Nat) (hp : Vec3) :
    (handleHandCollision2 s bid hp).world.eventQueue = s.world.eventQueue := rfl

theorem handleHandCollision2_map_fst (s : S2) (bid : Nat) (hp : Vec3) :
    (handleHandCollision2 s bid hp).world.ballBodies.map Prod.fst
      = s.world.ballBodies.map Prod.fst := by
  unfold handleHandCollision2
  simp [map_fst_updateBody]

theorem contactStep2_balls (s : S2) (b : BallEnt) :
    (contactStep2 s b).1.balls = s.balls := by
  unfold contactStep2
  by_cases hL : hitHand (World.getBody s.world b.id).pos s.leftHandMesh <;>
    by_cases hR : hitHand (World.getBody s.world b.id).pos s.rightHandMesh <;>
      simp [hL, hR, handleHandCollision2_balls]

theorem contactStep2_scene (s : S2) (b : BallEnt) :
    (contactStep2 s b).1.sceneBalls = s.sceneBalls := by
  unfold contactStep2
  by_cases hL : hitHand (World.getBody s.world b.id).pos s.leftHandMesh <;>
    by_cases hR : hitHand (World.getBody s.world b.id).pos s.rightHandMesh <;>
      simp [hL, hR, handleHandCollision2_scene]

theorem contactStep2_colliders (s : S2) (b : BallEnt) :
    (contactStep2 s b).1.world.ballColliders = s.world.ballColliders := by
  unfold contactStep2
  by_cases hL : hitHand (World.getBody s.world b.id).pos s.leftHandMesh <;>
    by_cases hR : hitHand (World.getBody s.world b.id).pos s.rightHandMesh <;>
      simp [hL, hR, handleHandCollision2_colliders]

theorem contactStep2_nextId (s : S2) (b : BallEnt) :
    (contactStep2 s b).1.nextId = s.nextId := by
  unfold contactStep2
  by_cases hL : hitHand (World.getBody s.world b.id).pos s.leftHandMesh <;>
    by_cases hR : hitHand (World.getBody s.world b.id).pos s.rightHandMesh <;>
      simp [hL, hR, handleHandCollision2_nextId]

theorem contactStep2_lastShot (s : S2) (b : BallEnt) :
    (contactStep2 s b).1.lastShot = s.lastShot := by
  unfold contactStep2
  by_cases hL : hitHand (World.getBody s.world b.id).pos s.leftHandMesh <;>
    by_cases hR : hitHand (World.getBody s.world b.id).pos s.rightHandMesh <;>
      simp [hL, hR, handleHandCollision2_lastShot]

theorem contactStep2_leftMesh (s : S2) (b : BallEnt) :
    (contactStep2 s b).1.leftHandMesh = s.leftHandMesh := by
  unfold contactStep2
  by_cases hL : hitHand (World.getBody s.world b.id).pos s.leftHandMesh <;>
    by_cases hR : hitHand (World.getBody s.world b.id).pos s.rightHandMesh <;>
      simp [hL, hR, handleHandCollision2_leftMesh]

theorem contactStep2_rightMesh (s : S2) (b : BallEnt) :
    (contactStep2 s b).1.rightHandMesh = s.rightHandMesh := by
  unfold contactStep2
  by_cases hL : hitHand (World.getBody s.world b.id).pos s.leftHandMesh <;>
    by_cases hR : hitHand (World.getBody s.world b.id).pos s.rightHandMesh <;>
      simp [hL, hR, handleHandCollision2_rightMesh]

theorem contactStep2_queue (s : S2) (b : BallEnt) :
    (contactStep2 s b).1.world.eventQueue = s.world.eventQueue := by
  unfold contactStep2
  by_cases hL : hitHand (World.getBody s.world b.id).pos s.leftHandMesh <;>
    by_cases hR : hitHand (World.getBody s.world b.id).pos s.rightHandMesh <;>
      simp [hL, hR, handleHandCollision2_queue]

theorem contactStep2_map_fst (s : S2) (b : BallEnt) :
    (contactStep2 s b).1.world.ballBodies.map Prod.fst
      = s.world.ballBodies.map Prod.fst := by
  unfold contactStep2
  by_cases hL : hitHand (World.getBody s.world b.id).pos s.leftHandMesh <;>
    by_cases hR : hitHand (World.getBody s.world b.id).pos s.rightHandMesh <;>
      simp [hL, hR, handleHandCollision2_map_fst]

theorem contactStep2_getBody_pos (s : S2) (b : BallEnt) (j : Nat) :
    (World.getBody (contactStep2 s b).1.world j).pos
      = (World.getBody s.world j).pos := by
  unfold contactStep2
  by_cases hL : hitHand (World.getBody s.world b.id).pos s.leftHandMesh <;>
    by_cases hR : hitHand (World.getBody s.world b.id).pos s.rightHandMesh <;>
      simp [hL, hR, getBody_pos_handleHandCollision2]

/-- The membership of a resolve event in one contact step is exactly the
geometric contact condition of that ball in the incoming state. -/
theorem contactStep2_resolve (s : S2) (b : BallEnt) (bid : Nat) :
    Ev.resolve bid ∈ (contactStep2 s b).2 ↔
      (bid = b.id ∧ contactHit s b = true) := by
  unfold contactStep2 contactHit
  by_cases hL : hitHand (World.getBody s.world b.id).pos s.leftHandMesh <;>
    by_cases hR : hitHand (World.getBody s.world b.id).pos s.rightHandMesh <;>
      simp [hL, hR]

theorem contactGo2_structure (l : List BallEnt) : ∀ s : S2,
    (contactGo2 s l).1.balls = s.balls ∧
    (contactGo2 s l).1.sceneBalls = s.sceneBalls ∧
    (contactGo2 s l).1.world.ballBodies.map Prod.fst
      = s.world.ballBodies.map Prod.fst ∧
    (contactGo2 s l).1.world.ballColliders = s.world.ballColliders ∧
    (contactGo2 s l).1.nextId = s.nextId ∧
    (contactGo2 s l).1.lastShot = s.lastShot ∧
    (contactGo2 s l).1.world.eventQueue = s.world.eventQueue := by
  induction l with
  | nil => exact fun s => ⟨rfl, rfl, rfl, rfl, rfl, rfl, rfl⟩
  | cons b rest ih =>
    intro s
    have hrec := ih (contactStep2 s b).1
    simp only [contactGo2]
    exact ⟨hrec.1.trans (contactStep2_balls s b),
           hrec.2.1.trans (contactStep2_scene s b),
           hrec.2.2.1.trans (contactStep2_map_fst s b),
           hrec.2.2.2.1.trans (contactStep2_colliders s b),
           hrec.2.2.2.2.1.trans (contactStep2_nextId s b),
           hrec.2.2.2.2.2.1.trans (contactStep2_lastShot s b),
           hrec.2.2.2.2.2.2.trans (contactStep2_queue s b)⟩

theorem contactHit_contactStep2 (s : S2) (b x : BallEnt) :
    contactHit (contactStep2 s b).1 x = contactHit s x := by
  unfold contactHit
  rw [contactStep2_getBody_pos, contactStep2_leftMesh, contactStep2_rightMesh]

/-- The Rev2 contact pass is memoryless: a resolve event for a ball id is
emitted exactly when some live ball with that id meets the geometric
contact condition in the state the pass reads, with no dependence on any
earlier frame. -/
theorem contactGo2_resolve (l : List BallEnt) : ∀ (s : S2) (bid : Nat),
    Ev.resolve bid ∈ (contactGo2 s l).2 ↔
      ∃ b ∈ l, bid = b.id ∧ contactHit s b = true := by
  induction l with
  | nil => intro s bid; simp [contactGo2]
  | cons b rest ih =>
    intro s bid
    simp only [contactGo2, List.mem_append]
    rw [contactStep2_resolve, ih (contactStep2 s b).1 bid]
    simp only [contactHit_contactStep2]
    constructor
    · rintro (⟨hb, hh⟩ | ⟨b2, hb2, hh⟩)
      · exact ⟨b, List.mem_cons_self b rest, hb, hh⟩
      · exact ⟨b2, List.mem_cons_of_mem _ hb2, hh⟩
    · rintro ⟨b2, hb2, hh⟩
      rcases List.mem_cons.mp hb2 with he | hm
      · exact Or.inl (he ▸ hh)
      · exact Or.inr ⟨b2, hm, hh⟩

/- ------------------------------------------------------------------ -/
/- Helper lemmas: shootBall and the remaining phases                  -/
/- ------------------------------------------------------------------ -/

theorem shootBall1_events (inp : FrameIn) (s : S1) :
    (shootBall1 inp s).2 = [Ev.shootCall] ∨
    (shootBall1 inp s).2 = [Ev.shootCall, Ev.ballSpawn] := by
  by_cases h : inp.now - s.lastShot < SHOT_INTERVAL <;> simp [shootBall1, h]

theorem shootBall2_events (inp : FrameIn) (s : S2) :
    (shootBall2 inp s).2 = [Ev.shootCall] ∨
    (shootBall2 inp s).2 = [Ev.shootCall, Ev.ballSpawn] := by
  by_cases h : inp.now - s.lastShot < SHOT_INTERVAL <;> simp [shootBall2, h]

theorem shootBall1_noop (inp : FrameIn) (s : S1)
    (h : inp.now - s.lastShot < SHOT_INTERVAL) :
    (shootBall1 inp s).1 = s := by
  simp [shootBall1, h]

theorem shootBall2_noop (inp : FrameIn) (s : S2)
    (h : inp.now - s.lastShot < SHOT_INTERVAL) :
    (shootBall2 inp s).1 = s := by
  simp [shootBall2, h]

theorem shootBall1_spawn_fields (inp : FrameIn) (s : S1)
    (h : ¬ inp.now - s.lastShot < SHOT_INTERVAL) :
    (shootBall1 inp s).1.balls
      = s.balls ++ [⟨s.nextId, ⟨(inp.rx - 1 / 2) * 3, inp.ry * 2 + 1, 10⟩⟩] ∧
    (shootBall1 inp s).1.sceneBalls = s.sceneBalls ++ [s.nextId] ∧
    (shootBall1 inp s).1.world.ballBodies.map Prod.fst
      = s.world.ballBodies.map Prod.fst ++ [s.nextId] ∧
    (shootBall1 inp s).1.world.ballColliders = s.world.ballColliders ++ [s.nextId] ∧
    (shootBall1 inp s).1.nextId = s.nextId + 1 ∧
    (shootBall1 inp s).1.lastShot = inp.now ∧
    (shootBall1 inp s).1.savesCount = s.savesCount ∧
    (shootBall1 inp s).1.goalsCount = s.goalsCount ∧
    (shootBall1 inp s).1.world.eventQueue = s.world.eventQueue := by
  simp [shootBall1, h]

theorem shootBall2_spawn_fields (inp : FrameIn) (s : S2)
    (h : ¬ inp.now - s.lastShot < SHOT_INTERVAL) :
    (shootBall2 inp s).1.balls
      = s.balls ++ [⟨s.nextId, ⟨(inp.rx - 1 / 2) * 3, inp.ry * 2 + 1, 10⟩⟩] ∧
    (shootBall2 inp s).1.sceneBalls = s.sceneBalls ++ [s.nextId] ∧
    (shootBall2 inp s).1.world.ballBodies.map Prod.fst
      = s.world.ballBodies.map Prod.fst ++ [s.nextId] ∧
    (shootBall2 inp s).1.world.ballColliders = s.world.ballColliders ++ [s.nextId] ∧
    (shootBall2 inp s).1.nextId = s.nextId + 1 ∧
    (shootBall2 inp s).1.lastShot = inp.now ∧
    (shootBall2 inp s).1.world.eventQueue = s.world.eventQueue := by
  simp [shootBall2, h]

theorem shootBall1_savesCount (inp : FrameIn) (s : S1) :
    (shootBall1 inp s).1.savesCount = s.savesCount := by
  by_cases h : inp.now - s.lastShot < SHOT_INTERVAL <;> simp [shootBall1, h]

theorem shootBall1_queue (inp : FrameIn) (s : S1) :
    (shootBall1 inp s).1.world.eventQueue = s.world.eventQueue := by
  by_cases h : inp.now - s.lastShot < SHOT_INTERVAL <;> simp [shootBall1, h]

theorem handUpdate1_cases (s : S1) :
    (handUpdate1 s).1 = s ∨
    (handUpdate1 s).1
      = { s with world := { s.world with
                              handBodyL := s.leftHandMesh,
                              handBodyR := s.rightHandMesh } } := by
  cases hL : s.leftHandCollider <;> cases hR : s.rightHandCollider <;>
    simp [handUpdate1, hL, hR]

theorem handUpdate1_events (s : S1) :
    (handUpdate1 s).2 = [] ∨ (handUpdate1 s).2 = [Ev.handWrite] := by
  cases hL : s.leftHandCollider <;> cases hR : s.rightHandCollider <;>
    simp [handUpdate1, hL, hR]

theorem drainPhase1_of_none (s : S1) (h : s.world.eventQueue = none) :
    drainPhase1 s = (s, [Ev.drainStart]) := by
  unfold drainPhase1
  rw [h]

theorem syncScoreGo_queue (l : List BallEnt) : ∀ (w : World) (scene : List Nat) (goals : Nat),
    (syncScoreGo w scene goals l).world.eventQueue = w.eventQueue := by
  induction l with
  | nil => intro w scene goals; rfl
  | cons b rest ih =>
    intro w scene goals
    by_cases hg : checkForGoal (World.getBody w b.id).pos
    · simp only [syncScoreGo, hg, if_true]
      exact ih _ _ _
    · by_cases hz : (World.getBody w b.id).pos.z < -10
      · simp only [syncScoreGo, hg, Bool.false_eq_true, if_false, if_pos hz]
        exact ih _ _ _
      · simp only [syncScoreGo, hg, Bool.false_eq_true, if_false, if_neg hz]
        exact ih _ _ _

/- ------------------------------------------------------------------ -/
/- Invariant preservation                                             -/
/- ------------------------------------------------------------------ -/

theorem IdsOf_append (l1 l2 : List BallEnt) :
    IdsOf (l1 ++ l2) = IdsOf l1 ++ IdsOf l2 := List.map_append _ _ _

theorem nodup_snoc {l : List Nat} {a : Nat} (hnd : l.Nodup) (ha : a ∉ l) :
    (l ++ [a]).Nodup := by
  refine List.nodup_append.mpr ⟨hnd, List.nodup_singleton a, ?_⟩
  intro x hx hx2
  rw [List.mem_singleton] at hx2
  exact ha (hx2 ▸ hx)

theorem Inv1_shootBall1 (inp : FrameIn) (s : S1) (h : Inv1 s) :
    Inv1 (shootBall1 inp s).1 := by
  by_cases hc : inp.now - s.lastShot < SHOT_INTERVAL
  · rw [shootBall1_noop inp s hc]; exact h
  · obtain ⟨⟨h1, h2, h3⟩, hnd, hb⟩ := h
    obtain ⟨f1, f2, f3, f4, f5, -⟩ := shootBall1_spawn_fields inp s hc
    have hfresh : s.nextId ∉ IdsOf s.balls := fun hmem => absurd (hb _ hmem) (by omega)
    have hids : IdsOf (shootBall1 inp s).1.balls = IdsOf s.balls ++ [s.nextId] := by
      rw [f1, IdsOf_append]; rfl
    refine ⟨⟨?_, ?_, ?_⟩, ?_, ?_⟩
    · rw [f2, hids, h1]
    · rw [f3, hids, h2]
    · rw [f4, hids, h3]
    · rw [hids]; exact nodup_snoc hnd hfresh
    · rw [hids, f5]
      intro j hj
      rcases List.mem_append.mp hj with hj | hj
      · have := hb _ hj; omega
      · rw [List.mem_singleton] at hj; omega

theorem Inv1_physSteps1 (s : S1) (h : Inv1 s) : Inv1 (physSteps1 s) := by
  obtain ⟨⟨h1, h2, h3⟩, hnd, hb⟩ := h
  refine ⟨⟨h1, ?_, ?_⟩, hnd, hb⟩
  · show (World.stepN 8 (1 / 480) s.world).ballBodies.map Prod.fst = _
    rw [map_fst_stepN]; exact h2
  · show (World.stepN 8 (1 / 480) s.world).ballColliders = _
    rw [ballColliders_stepN]; exact h3

theorem Inv1_handUpdate1 (s : S1) (h : Inv1 s) : Inv1 (handUpdate1 s).1 := by
  rcases handUpdate1_cases s with he | he <;> rw [he] <;> exact h

theorem Inv1_drainLoop1 (q : List REvent) (s : S1) (h : Inv1 s) :
    Inv1 (drainLoop1 s q).1 := by
  obtain ⟨⟨h1, h2, h3⟩, hnd, hb⟩ := h
  have hst := drainLoop1_structure q s
  refine ⟨⟨?_, ?_, ?_⟩, ?_, ?_⟩
  · rw [hst.2.1, hst.1]; exact h1
  · rw [hst.2.2.1, hst.1]; exact h2
  · rw [hst.2.2.2.1, hst.1]; exact h3
  · rw [hst.1]; exact hnd
  · rw [hst.1, hst.2.2.2.2.1]; exact hb

theorem Inv1_drainPhase1 (s : S1) (h : Inv1 s) : Inv1 (drainPhase1 s).1 := by
  cases hq : s.world.eventQueue with
  | none => rw [drainPhase1_of_none s hq]; exact h
  | some q =>
    unfold drainPhase1
    rw [hq]
    simp only []
    exact Inv1_drainLoop1 q _ ⟨⟨h.1.1, h.1.2.1, h.1.2.2⟩, h.2.1, h.2.2⟩

theorem Inv1_syncScore1 (s : S1) (h : Inv1 s) : Inv1 (syncScore1 s) := by
  obtain ⟨⟨h1, h2, h3⟩, hnd, hb⟩ := h
  have hspec := syncScoreGo_spec s.balls s.world s.sceneBalls s.goalsCount []
    (by simpa using h1) (by simpa using h2) (by simpa using h3) (by simpa using hnd)
  have hsub : List.Sublist ((s.balls.filter (keep1 s.world)).map (fun b => b.id))
      (s.balls.map (fun b => b.id)) :=
    (List.filter_sublist s.balls).map (fun b => b.id)
  have hsub2 : List.Sublist (IdsOf (s.balls.filter (keep1 s.world))) (IdsOf s.balls) := hsub
  refine ⟨⟨?_, ?_, ?_⟩, ?_, ?_⟩
  · show (syncScoreGo s.world s.sceneBalls s.goalsCount s.balls).scene
      = IdsOf (syncScoreGo s.world s.sceneBalls s.goalsCount s.balls).balls
    rw [hspec.2.2.1, hspec.1, IdsOf_map_updMesh]
    simp
  · show (syncScoreGo s.world s.sceneBalls s.goalsCount s.balls).world.ballBodies.map Prod.fst
      = IdsOf (syncScoreGo s.world s.sceneBalls s.goalsCount s.balls).balls
    rw [hspec.2.2.2.1, hspec.1, IdsOf_map_updMesh]
    simp
  · show (syncScoreGo s.world s.sceneBalls s.goalsCount s.balls).world.ballColliders
      = IdsOf (syncScoreGo s.world s.sceneBalls s.goalsCount s.balls).balls
    rw [hspec.2.2.2.2.1, hspec.1, IdsOf_map_updMesh]
    simp
  · show (IdsOf (syncScoreGo s.world s.sceneBalls s.goalsCount s.balls).balls).Nodup
    rw [hspec.1, IdsOf_map_updMesh]
    exact hnd.sublist hsub2
  · show ∀ j ∈ IdsOf (syncScoreGo s.world s.sceneBalls s.goalsCount s.balls).balls,
      j < s.nextId
    rw [hspec.1, IdsOf_map_updMesh]
    intro j hj
    exact hb j (hsub2.mem hj)

theorem Inv1_frame1 (inp : FrameIn) (s : S1) (h : Inv1 s) : Inv1 (frame1 inp s).1 :=
  Inv1_syncScore1 _ (Inv1_drainPhase1 _ (Inv1_handUpdate1 _
    (Inv1_physSteps1 _ (Inv1_shootBall1 inp s h))))

theorem Inv1_pose (lm : Option (List Landmark)) (s : S1) (h : Inv1 s) :
    Inv1 (updatePlayerPosition1 lm s) := by
  cases lm with
  | none => exact h
  | some l =>
    by_cases hl : l.length < 33
    · simp only [updatePlayerPosition1, dif_pos hl]; exact h
    · simp only [updatePlayerPosition1, dif_neg hl]; exact h

theorem Inv1_init : Inv1 init1 := by
  refine ⟨⟨rfl, rfl, rfl⟩, List.nodup_nil, ?_⟩
  intro j hj
  simp [init1, IdsOf] at hj

theorem reachable1_inv {s : S1} (h : Reachable1 s) : Inv1 s := by
  induction h with
  | init => exact Inv1_init
  | step _ hstep ih =>
    cases hstep with
    | frame inp => exact Inv1_frame1 inp _ ih
    | shoot inp => exact Inv1_shootBall1 inp _ ih
    | pose lm => exact Inv1_pose lm _ ih

/- ------------------------------------------------------------------ -/
/- Rev2 invariant preservation                                        -/
/- ------------------------------------------------------------------ -/

theorem Inv2_shootBall2 (inp : FrameIn) (s : S2) (h : Inv2 s) :
    Inv2 (shootBall2 inp s).1 := by
  by_cases hc : inp.now - s.lastShot < SHOT_INTERVAL
  · rw [shootBall2_noop inp s hc]; exact h
  · obtain ⟨⟨h1, h2, h3⟩, hnd, hb⟩ := h
    obtain ⟨f1, f2, f3, f4, f5, -⟩ := shootBall2_spawn_fields inp s hc
    have hfresh : s.nextId ∉ IdsOf s.balls := fun hmem => absurd (hb _ hmem) (by omega)
    have hids : IdsOf (shootBall2 inp s).1.balls = IdsOf s.balls ++ [s.nextId] := by
      rw [f1, IdsOf_append]; rfl
    refine ⟨⟨?_, ?_, ?_⟩, ?_, ?_⟩
    · rw [f2, hids, h1]
    · rw [f3, hids, h2]
    · rw [f4, hids, h3]
    · rw [hids]; exact nodup_snoc hnd hfresh
    · rw [hids, f5]
      intro j hj
      rcases List.mem_append.mp hj with hj | hj
      · have := hb _ hj; omega
      · rw [List.mem_singleton] at hj; omega

theorem Inv2_physSteps2 (s : S2) (h : Inv2 s) : Inv2 (physSteps2 s) := by
  obtain ⟨⟨h1, h2, h3⟩, hnd, hb⟩ := h
  refine ⟨⟨h1, ?_, ?_⟩, hnd, hb⟩
  · show (World.stepN 4 (1 / 360) s.world).ballBodies.map Prod.fst = _
    rw [map_fst_stepN]; exact h2
  · show (World.stepN 4 (1 / 360) s.world).ballColliders = _
    rw [ballColliders_stepN]; exact h3

theorem IdsOf_ballSync2 (s : S2) : IdsOf (ballSync2 s).balls = IdsOf s.balls := by
  show IdsOf (s.balls.map _) = _
  simp only [IdsOf, List.map_map]
  rfl

theorem Inv2_ballSync2 (s : S2) (h : Inv2 s) : Inv2 (ballSync2 s) := by
  obtain ⟨⟨h1, h2, h3⟩, hnd, hb⟩ := h
  rw [Inv2, Aligned2, IdsOf_ballSync2]
  exact ⟨⟨h1, h2, h3⟩, hnd, hb⟩

theorem Inv2_contactPhase2 (s : S2) (h : Inv2 s) : Inv2 (contactPhase2 s).1 := by
  obtain ⟨⟨h1, h2, h3⟩, hnd, hb⟩ := h
  have hst := contactGo2_structure s.balls s
  show Inv2 (contactGo2 s s.balls).1
  refine ⟨⟨?_, ?_, ?_⟩, ?_, ?_⟩
  · rw [hst.2.1, hst.1]; exact h1
  · rw [hst.2.2.1, hst.1]; exact h2
  · rw [hst.2.2.2.1, hst.1]; exact h3
  · rw [hst.1]; exact hnd
  · rw [hst.1, hst.2.2.2.2.1]; exact hb

theorem Inv2_cull2 (s : S2) (h : Inv2 s) : Inv2 (cull2 s) := by
  obtain ⟨⟨h1, h2, h3⟩, hnd, hb⟩ := h
  have hspec := cullGo2_spec s.balls s.world s.sceneBalls []
    (by simpa using h1) (by simpa using h2) (by simpa using h3) (by simpa using hnd)
  have hsub : List.Sublist ((s.balls.filter keep2).map (fun b => b.id))
      (s.balls.map (fun b => b.id)) :=
    (List.filter_sublist s.balls).map (fun b => b.id)
  have hsub2 : List.Sublist (IdsOf (s.balls.filter keep2)) (IdsOf s.balls) := hsub
  refine ⟨⟨?_, ?_, ?_⟩, ?_, ?_⟩
  · show (cullGo2 s.world s.sceneBalls s.balls).2.1
      = IdsOf (cullGo2 s.world s.sceneBalls s.balls).2.2
    rw [hspec.2.1, hspec.1]
    simp
  · show (cullGo2 s.world s.sceneBalls s.balls).1.ballBodies.map Prod.fst
      = IdsOf (cullGo2 s.world s.sceneBalls s.balls).2.2
    rw [hspec.2.2.1, hspec.1]
    simp
  · show (cullGo2 s.world s.sceneBalls s.balls).1.ballColliders
      = IdsOf (cullGo2 s.world s.sceneBalls s.balls).2.2
    rw [hspec.2.2.2.1, hspec.1]
    simp
  · show (IdsOf (cullGo2 s.world s.sceneBalls s.balls).2.2).Nodup
    rw [hspec.1]
    exact hnd.sublist hsub2
  · show ∀ j ∈ IdsOf (cullGo2 s.world s.sceneBalls s.balls).2.2, j < s.nextId
    rw [hspec.1]
    intro j hj
    exact hb j (hsub2.mem hj)

theorem Inv2_frame2 (inp : FrameIn) (s : S2) (h : Inv2 s) : Inv2 (frame2 inp s).1 :=
  Inv2_shootBall2 inp _ (Inv2_cull2 _ (Inv2_contactPhase2 _
    (Inv2_ballSync2 _ (Inv2_physSteps2 _ h))))

theorem Inv2_pose (lm : Option (List Landmark)) (s : S2) (h : Inv2 s) :
    Inv2 (updatePlayerPosition2 lm s) := by
  cases lm with
  | none => exact h
  | some l =>
    by_cases hl : l.length < 33
    · simp only [updatePlayerPosition2, dif_pos hl]; exact h
    · simp only [updatePlayerPosition2, dif_neg hl]; exact h

theorem Inv2_init : Inv2 init2 := by
  refine ⟨⟨rfl, rfl, rfl⟩, List.nodup_nil, ?_⟩
  intro j hj
  simp [init2, IdsOf] at hj

theorem reachable2_inv {s : S2} (h : Reachable2 s) : Inv2 s := by
  induction h with
  | init => exact Inv2_init
  | step _ hstep ih =>
    cases hstep with
    | frame inp => exact Inv2_frame2 inp _ ih
    | shoot inp => exact Inv2_shootBall2 inp _ ih
    | pose lm => exact Inv2_pose lm _ ih

/- ------------------------------------------------------------------ -/
/- The dead drain loop of Rev1                                        -/
/- ------------------------------------------------------------------ -/

theorem physSteps1_queue (s : S1) :
    (physSteps1 s).world.eventQueue = s.world.eventQueue := by
  show (World.stepN 8 (1 / 480) s.world).eventQueue = _
  rw [eventQueue_stepN]

theorem handUpdate1_queue (s : S1) :
    (handUpdate1 s).1.world.eventQueue = s.world.eventQueue := by
  rcases handUpdate1_cases s with he | he <;> rw [he]

theorem handUpdate1_savesCount (s : S1) :
    (handUpdate1 s).1.savesCount = s.savesCount := by
  rcases handUpdate1_cases s with he | he <;> rw [he]

theorem syncScore1_queue (s : S1) :
    (syncScore1 s).world.eventQueue = s.world.eventQueue := by
  show (syncScoreGo s.world s.sceneBalls s.goalsCount s.balls).world.eventQueue = _
  rw [syncScoreGo_queue]

/-- On a state whose world event queue was never assigned, the Rev1 frame
neither changes the save counter nor emits a resolver event, and the queue
stays unassigned. -/
theorem frame1_dead_drain (inp : FrameIn) (s : S1) (hq : s.world.eventQueue = none) :
    (frame1 inp s).1.savesCount = s.savesCount ∧
    (frame1 inp s).1.world.eventQueue = none ∧
    ∀ bid : Nat, Ev.saveResolve bid ∉ (frame1 inp s).2 := by
  have qa : (shootBall1 inp s).1.world.eventQueue = none :=
    (shootBall1_queue inp s).trans hq
  have qb : (physSteps1 (shootBall1 inp s).1).world.eventQueue = none :=
    (physSteps1_queue _).trans qa
  have qc : (handUpdate1 (physSteps1 (shootBall1 inp s).1)).1.world.eventQueue = none :=
    (handUpdate1_queue _).trans qb
  have hd := drainPhase1_of_none _ qc
  have hd1 : (drainPhase1 (handUpdate1 (physSteps1 (shootBall1 inp s).1)).1).1
      = (handUpdate1 (physSteps1 (shootBall1 inp s).1)).1 := by rw [hd]
  have hd2 : (drainPhase1 (handUpdate1 (physSteps1 (shootBall1 inp s).1)).1).2
      = [Ev.drainStart] := by rw [hd]
  refine ⟨?_, ?_, ?_⟩
  · show (syncScore1 (drainPhase1 (handUpdate1 (physSteps1 (shootBall1 inp s).1)).1).1).savesCount
      = s.savesCount
    rw [hd1]
    show (handUpdate1 (physSteps1 (shootBall1 inp s).1)).1.savesCount = s.savesCount
    rw [handUpdate1_savesCount]
    show (shootBall1 inp s).1.savesCount = s.savesCount
    exact shootBall1_savesCount inp s
  · show (syncScore1 (drainPhase1 (handUpdate1 (physSteps1 (shootBall1 inp s).1)).1).1).world.eventQueue
      = none
    rw [syncScore1_queue, hd1]
    exact qc
  · intro bid
    show Ev.saveResolve bid ∉
      (shootBall1 inp s).2 ++ List.replicate 8 Ev.physStep
        ++ (handUpdate1 (physSteps1 (shootBall1 inp s).1)).2
        ++ (drainPhase1 (handUpdate1 (physSteps1 (shootBall1 inp s).1)).1).2
        ++ [Ev.syncScoreStart, Ev.render]
    rw [hd2]
    rcases shootBall1_events inp s with he | he <;>
      rcases handUpdate1_events (physSteps1 (shootBall1 inp s).1) with hu | hu <;>
        rw [he, hu] <;> simp [List.mem_replicate]

/-- Core of the dead-loop invariant: on every reachable Rev1 state the world
event queue is still unassigned and the save counter is still zero. -/
theorem reachable1_dead {s : S1} (h : Reachable1 s) :
    s.world.eventQueue = none ∧ s.savesCount = 0 := by
  induction h with
  | init => exact ⟨rfl, rfl⟩
  | step _ hstep ih =>
    cases hstep with
    | frame inp =>
      have hcore := frame1_dead_drain inp _ ih.1
      exact ⟨hcore.2.1, hcore.1.trans ih.2⟩
    | shoot inp =>
      exact ⟨(shootBall1_queue inp _).trans ih.1,
             (shootBall1_savesCount inp _).trans ih.2⟩
    | pose lm =>
      rename_i t
      cases lm with
      | none => exact ih
      | some l =>
        by_cases hl : l.length < 33
        · simp only [updatePlayerPosition1, dif_pos hl]; exact ih
        · simp only [updatePlayerPosition1, dif_neg hl]; exact ih

/- ------------------------------------------------------------------ -/
/- Square-root comparisons                                            -/
/- ------------------------------------------------------------------ -/

theorem distSq_nonneg (a b : Vec3) : 0 ≤ distSq a b := by
  unfold distSq
  positivity

/-- The embedded squared comparison agrees with the source formulation
Math.sqrt(d) < t for a positive threshold. -/
theorem sqrt_lt_iff_sq_lt (d t : ℚ) (ht : 0 < t) :
    Real.sqrt (d : ℝ) < (t : ℝ) ↔ d < t ^ 2 := by
  rw [Real.sqrt_lt' (by exact_mod_cast ht)]
  constructor <;> intro h <;> exact_mod_cast h

/-- hitHand is exactly the Rev2 source test
Math.sqrt(distSq) < collisionThreshold. -/
theorem hitHand_iff_sqrt (bp hp : Vec3) :
    hitHand bp hp = true ↔
      Real.sqrt ((distSq bp hp : ℚ) : ℝ) < ((collisionThreshold2 : ℚ) : ℝ) := by
  unfold hitHand
  rw [decide_eq_true_eq,
    sqrt_lt_iff_sq_lt _ _ (by norm_num [collisionThreshold2, handColliderSize])]

/- ------------------------------------------------------------------ -/
/- Event shapes of the remaining segments                             -/
/- ------------------------------------------------------------------ -/

theorem drainLoop1_events (q : List REvent) :
    ∀ (s : S1) (e : Ev), e ∈ (drainLoop1 s q).2 → ∃ bid, e = Ev.saveResolve bid := by
  induction q with
  | nil => intro s e he; simp [drainLoop1] at he
  | cons ev rest ih =>
    intro s e he
    simp only [drainLoop1, List.mem_append] at he
    rcases he with he | he
    · rcases drainStep1_events s ev with h0 | ⟨bid, h0⟩ <;> rw [h0] at he
      · simp at he
      · simp at he; exact ⟨bid, he⟩
    · exact ih _ e he

theorem drainPhase1_events (s : S1) :
    ∀ e ∈ (drainPhase1 s).2, e = Ev.drainStart ∨ ∃ bid, e = Ev.saveResolve bid := by
  cases hq : s.world.eventQueue with
  | none =>
    rw [drainPhase1_of_none s hq]
    intro e he
    simp at he
    exact Or.inl he
  | some q =>
    unfold drainPhase1
    rw [hq]
    intro e he
    simp only [List.mem_cons] at he
    rcases he with he | he
    · exact Or.inl he
    · exact Or.inr (drainLoop1_events q _ e he)

theorem contactStep2_events (s : S2) (b : BallEnt) :
    ∀ e ∈ (contactStep2 s b).2, ∃ bid, e = Ev.resolve bid := by
  intro e he
  unfold contactStep2 at he
  by_cases hL : hitHand (World.getBody s.world b.id).pos s.leftHandMesh <;>
    by_cases hR : hitHand (World.getBody s.world b.id).pos s.rightHandMesh <;>
      simp [hL, hR] at he <;>
        exact ⟨b.id, he⟩

theorem contactGo2_events (l : List BallEnt) :
    ∀ (s : S2) (e : Ev), e ∈ (contactGo2 s l).2 → ∃ bid, e = Ev.resolve bid := by
  induction l with
  | nil => intro s e he; simp [contactGo2] at he
  | cons b rest ih =>
    intro s e he
    simp only [contactGo2, List.mem_append] at he
    rcases he with he | he
    · exact contactStep2_events s b e he
    · exact ih _ e he

/- ------------------------------------------------------------------ -/
/- Phase ordering of the two frames                                   -/
/- ------------------------------------------------------------------ -/

theorem phaseBefore_split {a b : Ev} {l1 l2 : List Ev} (ha : a ∉ l2) (hb : b ∉ l1) :
    phaseBefore a b (l1 ++ l2) = true :=
  phaseBefore_append (phaseBefore_of_not_b hb) (fun hbl => absurd hbl hb)
    (phaseBefore_of_not_a ha)

theorem phaseBefore_prefix {a b : Ev} {l1 l2 : List Ev} (hb : b ∉ l1)
    (h : phaseBefore a b l2 = true) : phaseBefore a b (l1 ++ l2) = true :=
  phaseBefore_append (phaseBefore_of_not_b hb) (fun hh => absurd hh hb) h

theorem notMem_shoot1 (inp : FrameIn) (s : S1) {e : Ev}
    (h1 : e ≠ Ev.shootCall) (h2 : e ≠ Ev.ballSpawn) : e ∉ (shootBall1 inp s).2 := by
  rcases shootBall1_events inp s with h | h <;> simp [h, h1, h2]

theorem notMem_shoot2 (inp : FrameIn) (s : S2) {e : Ev}
    (h1 : e ≠ Ev.shootCall) (h2 : e ≠ Ev.ballSpawn) : e ∉ (shootBall2 inp s).2 := by
  rcases shootBall2_events inp s with h | h <;> simp [h, h1, h2]

theorem notMem_handUpdate1 (s : S1) {e : Ev} (h1 : e ≠ Ev.handWrite) :
    e ∉ (handUpdate1 s).2 := by
  rcases handUpdate1_events s with h | h <;> simp [h, h1]

theorem notMem_drainPhase1 (s : S1) {e : Ev} (h1 : e ≠ Ev.drainStart)
    (h2 : ∀ bid, e ≠ Ev.saveResolve bid) : e ∉ (drainPhase1 s).2 := by
  intro hmem
  rcases drainPhase1_events s e hmem with he | ⟨bid, he⟩
  · exact h1 he
  · exact h2 bid he

theorem notMem_contactGo2 (s : S2) (l : List BallEnt) {e : Ev}
    (h : ∀ bid, e ≠ Ev.resolve bid) : e ∉ (contactGo2 s l).2 := by
  intro hmem
  rcases contactGo2_events l s e hmem with ⟨bid, he⟩
  exact h bid he

/-- In the Rev1 frame all physics substeps precede the hand-target write. -/
theorem frame1_steps_before_handWrite (inp : FrameIn) (s : S1) :
    phaseBefore Ev.physStep Ev.handWrite (frame1 inp s).2 = true := by
  show phaseBefore Ev.physStep Ev.handWrite
    ((shootBall1 inp s).2 ++ List.replicate 8 Ev.physStep
      ++ (handUpdate1 (physSteps1 (shootBall1 inp s).1)).2
      ++ (drainPhase1 (handUpdate1 (physSteps1 (shootBall1 inp s).1)).1).2
      ++ [Ev.syncScoreStart, Ev.render]) = true
  rw [List.append_assoc, List.append_assoc, List.append_assoc]
  refine phaseBefore_prefix (notMem_shoot1 inp s (by simp) (by simp)) ?_
  refine phaseBefore_prefix (by simp [List.mem_replicate]) ?_
  refine phaseBefore_of_not_a ?_
  simp only [List.mem_append, List.mem_cons]
  push_neg
  refine ⟨notMem_handUpdate1 _ (by simp), notMem_drainPhase1 _ (by simp) (by simp), by simp, by simp⟩

/-- In the Rev1 frame the collision-event drain precedes the combined
sync / goal / cull pass. -/
theorem frame1_drain_before_syncScore (inp : FrameIn) (s : S1) :
    phaseBefore Ev.drainStart Ev.syncScoreStart (frame1 inp s).2 = true := by
  show phaseBefore Ev.drainStart Ev.syncScoreStart
    ((shootBall1 inp s).2 ++ List.replicate 8 Ev.physStep
      ++ (handUpdate1 (physSteps1 (shootBall1 inp s).1)).2
      ++ (drainPhase1 (handUpdate1 (physSteps1 (shootBall1 inp s).1)).1).2
      ++ [Ev.syncScoreStart, Ev.render]) = true
  rw [List.append_assoc, List.append_assoc, List.append_assoc]
  refine phaseBefore_prefix (notMem_shoot1 inp s (by simp) (by simp)) ?_
  refine phaseBefore_prefix (by simp [List.mem_replicate]) ?_
  refine phaseBefore_prefix (notMem_handUpdate1 _ (by simp)) ?_
  exact phaseBefore_split (by simp) (notMem_drainPhase1 _ (by simp) (by simp))

theorem notMem_body2 (inp : FrameIn) (s : S2) {e : Ev}
    (h2 : e ≠ Ev.contactStart) (h3 : ∀ bid, e ≠ Ev.resolve bid)
    (h4 : e ≠ Ev.cullStart) (h5 : e ≠ Ev.shootCall) (h6 : e ≠ Ev.ballSpawn)
    (h7 : e ≠ Ev.render) :
    e ∉ ((Ev.contactStart ::
            (contactGo2 (ballSync2 (physSteps2 s)) (ballSync2 (physSteps2 s)).balls).2)
          ++ (Ev.cullStart ::
               ((shootBall2 inp
                   (cull2 (contactGo2 (ballSync2 (physSteps2 s)) (ballSync2 (physSteps2 s)).balls).1)).2
                 ++ [Ev.render]))) := by
  intro hmem
  rcases List.mem_append.mp hmem with hmem | hmem
  · rcases List.mem_cons.mp hmem with h | hmem
    · exact h2 h
    · exact absurd hmem (notMem_contactGo2 _ _ h3)
  · rcases List.mem_cons.mp hmem with h | hmem
    · exact h4 h
    · rcases List.mem_append.mp hmem with hmem | hmem
      · exact absurd hmem (notMem_shoot2 _ _ h5 h6)
      · rw [List.mem_singleton] at hmem
        exact h7 hmem

theorem notMem_tail2 (inp : FrameIn) (s : S2) {e : Ev}
    (h1 : e ≠ Ev.syncStart) (h2 : e ≠ Ev.contactStart)
    (h3 : ∀ bid, e ≠ Ev.resolve bid) (h4 : e ≠ Ev.cullStart)
    (h5 : e ≠ Ev.shootCall) (h6 : e ≠ Ev.ballSpawn) (h7 : e ≠ Ev.render) :
    e ∉ (Ev.syncStart ::
          ((Ev.contactStart ::
              (contactGo2 (ballSync2 (physSteps2 s)) (ballSync2 (physSteps2 s)).balls).2)
            ++ (Ev.cullStart ::
                 ((shootBall2 inp
                     (cull2 (contactGo2 (ballSync2 (physSteps2 s)) (ballSync2 (physSteps2 s)).balls).1)).2
                   ++ [Ev.render])))) := by
  intro hmem
  rcases List.mem_cons.mp hmem with h | hmem
  · exact h1 h
  · exact absurd hmem (notMem_body2 inp s h2 h3 h4 h5 h6 h7)

/-- In the Rev2 frame all physics substeps precede the hand phase. -/
theorem frame2_steps_before_handPhase (inp : FrameIn) (s : S2) :
    phaseBefore Ev.physStep Ev.handPhase (frame2 inp s).2 = true := by
  show phaseBefore Ev.physStep Ev.handPhase
    (List.replicate 4 Ev.physStep ++ [Ev.handPhase]
      ++ (Ev.syncStart ::
           ((Ev.contactStart ::
               (contactGo2 (ballSync2 (physSteps2 s)) (ballSync2 (physSteps2 s)).balls).2)
             ++ (Ev.cullStart ::
                  ((shootBall2 inp
                      (cull2 (contactGo2 (ballSync2 (physSteps2 s)) (ballSync2 (physSteps2 s)).balls).1)).2
                    ++ [Ev.render]))))) = true
  rw [List.append_assoc]
  refine phaseBefore_prefix (by simp [List.mem_replicate]) ?_
  refine phaseBefore_of_not_a ?_
  intro hmem
  rcases List.mem_append.mp hmem with h | hmem
  · simp at h
  · exact absurd hmem
      (notMem_tail2 inp s (by simp) (by simp) (by simp) (by simp) (by simp) (by simp) (by simp))

theorem phaseBefore_cons_self {a b : Ev} {l : List Ev} (ha : a ∉ l) (hab : ¬ a = b) :
    phaseBefore a b (a :: l) = true := by
  simp [phaseBefore, hab, phaseBefore_of_not_a ha]

theorem phaseBefore_cons_of_ne {a b x : Ev} {l : List Ev} (hx : ¬ x = b)
    (h : phaseBefore a b l = true) : phaseBefore a b (x :: l) = true := by
  simp [phaseBefore, hx, h]

/-- In the Rev2 frame the ball position sync precedes the contact pass. -/
theorem frame2_sync_before_contact (inp : FrameIn) (s : S2) :
    phaseBefore Ev.syncStart Ev.contactStart (frame2 inp s).2 = true := by
  show phaseBefore Ev.syncStart Ev.contactStart
    (List.replicate 4 Ev.physStep ++ [Ev.handPhase]
      ++ (Ev.syncStart ::
           ((Ev.contactStart ::
               (contactGo2 (ballSync2 (physSteps2 s)) (ballSync2 (physSteps2 s)).balls).2)
             ++ (Ev.cullStart ::
                  ((shootBall2 inp
                      (cull2 (contactGo2 (ballSync2 (physSteps2 s)) (ballSync2 (physSteps2 s)).balls).1)).2
                    ++ [Ev.render]))))) = true
  rw [List.append_assoc]
  refine phaseBefore_prefix (by simp [List.mem_replicate]) ?_
  refine phaseBefore_prefix (by simp) ?_
  exact phaseBefore_cons_self
    (notMem_body2 inp s (by simp) (by simp) (by simp) (by simp) (by simp) (by simp))
    (by simp)

/-- In the Rev2 frame the contact pass precedes the rear cull. -/
theorem frame2_contact_before_cull (inp : FrameIn) (s : S2) :
    phaseBefore Ev.contactStart Ev.cullStart (frame2 inp s).2 = true := by
  show phaseBefore Ev.contactStart Ev.cullStart
    (List.replicate 4 Ev.physStep ++ [Ev.handPhase]
      ++ (Ev.syncStart ::
           ((Ev.contactStart ::
               (contactGo2 (ballSync2 (physSteps2 s)) (ballSync2 (physSteps2 s)).balls).2)
             ++ (Ev.cullStart ::
                  ((shootBall2 inp
                      (cull2 (contactGo2 (ballSync2 (physSteps2 s)) (ballSync2 (physSteps2 s)).balls).1)).2
                    ++ [Ev.render]))))) = true
  rw [List.append_assoc]
  refine phaseBefore_prefix (by simp [List.mem_replicate]) ?_
  refine phaseBefore_prefix (by simp) ?_
  refine phaseBefore_cons_of_ne (by simp) ?_
  refine phaseBefore_split ?_ ?_
  · intro hmem
    rcases List.mem_cons.mp hmem with h | hmem
    · exact absurd h (by simp)
    · rcases List.mem_append.mp hmem with hmem | hmem
      · exact absurd hmem (notMem_shoot2 _ _ (by simp) (by simp))
      · rw [List.mem_singleton] at hmem
        exact absurd hmem (by simp)
  · intro hmem
    rcases List.mem_cons.mp hmem with h | hmem
    · exact absurd h (by simp)
    · exact absurd hmem (notMem_contactGo2 _ _ (by simp))

/- ------------------------------------------------------------------ -/
/- Final helpers for the claims                                       -/
/- ------------------------------------------------------------------ -/

theorem zero3_add (v : Vec3) : Vec3.zero3 + v = v := by
  show (⟨0 + v.x, 0 + v.y, 0 + v.z⟩ : Vec3) = v
  simp

theorem eq_of_mem_nodup_ids {l : List BallEnt} (hnd : (IdsOf l).Nodup)
    {x y : BallEnt} (hx : x ∈ l) (hy : y ∈ l) (he : x.id = y.id) : x = y :=
  List.inj_on_of_nodup_map hnd hx hy he

theorem goalHit1_false_of_behind (w : World) (b : BallEnt)
    (hz : (World.getBody w b.id).pos.z < -10) : goalHit1 w b = false := by
  have habs : ¬ (|(World.getBody w b.id).pos.z - GOAL_BOUNDS.zPlane| < 1 / 2) := by
    show ¬ (|(World.getBody w b.id).pos.z - 0| < 1 / 2)
    rw [sub_zero]
    intro habs
    have := neg_abs_le (World.getBody w b.id).pos.z
    rw [abs_lt] at habs
    linarith
  unfold goalHit1 checkForGoal
  rw [decide_eq_false habs]
  simp

/-- C1 (amended): on every confirmed contact the Rev1 resolver increments
the save counter by exactly one, zeroes the angular velocity, and sets the
linear velocity to the deflection impulse alone - x and y components ten
times the ball-minus-hand offset, z component the constant 20 - scaled by
the inverse mass, independent of the pre-impact velocity; the impulse
direction is neither the normalized offset nor a fixed forward vector
(see the counterexample). -/
theorem claimC1_theorem (s : S1) (bid : Nat) (handPos : Vec3) (bd : Body)
    (h : findBody s.world.ballBodies bid = some bd) :
    (handleHandCollision1 s bid handPos).savesCount = s.savesCount + 1 ∧
    findBody (handleHandCollision1 s bid handPos).world.ballBodies bid
      = some { bd with
                 linvel := Vec3.scale bd.invMass
                   ⟨(bd.pos.x - handPos.x) * (1 / 2) * 20,
                    (bd.pos.y - handPos.y) * (1 / 2) * 20, 20⟩,
                 angvel := Vec3.zero3 } := by
  refine ⟨rfl, ?_⟩
  unfold handleHandCollision1
  simp only []
  rw [findBody_updateBody_self, findBody_updateBody_self, findBody_updateBody_self]
  unfold World.getBody
  rw [h]
  simp [Body.setLinvel, Body.setAngvel, Body.applyImpulse, zero3_add]

/-- C4 (amended): nothing in the program removes or debounces repeat
contacts - the Rev2 contact pass is memoryless: the resolver fires on a
ball handle in a frame exactly when the geometric contact condition holds
for that ball in the state the pass reads, with no dependence on earlier
frames; it therefore fires again in the next frame whenever the ball is
still inside the threshold.  The save counter, which exists only in the
event-driven revision, is nonetheless never incremented more than once
because its drain loop never runs at all. -/
theorem claimC4_theorem (s : S2) (inp : FrameIn) (bid : Nat) :
    resolvedIn s inp bid ↔
      ∃ b ∈ (midState2 s).balls, bid = b.id ∧ contactHit (midState2 s) b = true := by
  unfold resolvedIn
  have hmem : Ev.resolve bid ∈ (frame2 inp s).2 ↔
      Ev.resolve bid ∈ (contactGo2 (midState2 s) (midState2 s).balls).2 := by
    show Ev.resolve bid ∈ (List.replicate 4 Ev.physStep ++ [Ev.handPhase]
      ++ (Ev.syncStart ::
           ((Ev.contactStart ::
               (contactGo2 (ballSync2 (physSteps2 s)) (ballSync2 (physSteps2 s)).balls).2)
             ++ (Ev.cullStart ::
                  ((shootBall2 inp
                      (cull2 (contactGo2 (ballSync2 (physSteps2 s)) (ballSync2 (physSteps2 s)).balls).1)).2
                    ++ [Ev.render]))))) ↔ _
    constructor
    · intro h
      rcases List.mem_append.mp h with h | h
      · rcases List.mem_append.mp h with h | h
        · simp [List.mem_replicate] at h
        · simp at h
      · rcases List.mem_cons.mp h with h | h
        · simp at h
        · rcases List.mem_append.mp h with h | h
          · rcases List.mem_cons.mp h with h | h
            · simp at h
            · exact h
          · rcases List.mem_cons.mp h with h | h
            · simp at h
            · rcases List.mem_append.mp h with h | h
              · exact absurd h (notMem_shoot2 _ _ (by simp) (by simp))
              · simp at h
    · intro h
      refine List.mem_append.mpr (Or.inr ?_)
      refine List.mem_cons.mpr (Or.inr ?_)
      refine List.mem_append.mpr (Or.inl ?_)
      exact List.mem_cons.mpr (Or.inr h)
  rw [hmem]
  exact contactGo2_resolve (midState2 s).balls (midState2 s) bid

/- ------------------------------------------------------------------ -/
/- Claims                                                             -/
/- ------------------------------------------------------------------ -/

theorem claimC1_witness :
    findBody cexC1a.world.ballBodies 2 = some ⟨⟨1, 0, 0⟩, ⟨5, 5, -5⟩, ⟨1, 1, 1⟩, 1⟩ ∧
    (handleHandCollision1 cexC1a 2 Vec3.zero3).savesCount = cexC1a.savesCount + 1 ∧
    findBody (handleHandCollision1 cexC1a 2 Vec3.zero3).world.ballBodies 2
      = some ⟨⟨1, 0, 0⟩, ⟨10, 0, 20⟩, Vec3.zero3, 1⟩ := by
  have h0 : findBody cexC1a.world.ballBodies 2
      = some ⟨⟨1, 0, 0⟩, ⟨5, 5, -5⟩, ⟨1, 1, 1⟩, 1⟩ := by with_unfolding_all rfl
  have h := claimC1_theorem cexC1a 2 Vec3.zero3 ⟨⟨1, 0, 0⟩, ⟨5, 5, -5⟩, ⟨1, 1, 1⟩, 1⟩ h0
  refine ⟨h0, h.1, ?_⟩
  rw [h.2]
  with_unfolding_all rfl

/-- C1, the claim as stated, fails on the code: the deflection impulse of
the Rev1 resolver is parallel neither to the normalized ball-minus-hand
offset of the contact (nonzero cross product with it at a concrete
contact) nor to any fixed vector (two concrete contacts give non-parallel
impulses). -/
theorem claimC1_counterexample :
    (World.getBody (handleHandCollision1 cexC1a 2 Vec3.zero3).world 2).linvel
      = ⟨10, 0, 20⟩ ∧
    (World.getBody (handleHandCollision1 cexC1b 2 Vec3.zero3).world 2).linvel
      = ⟨0, 10, 20⟩ ∧
    Vec3.cross ⟨10, 0, 20⟩ ⟨1, 0, 0⟩ ≠ Vec3.zero3 ∧
    Vec3.cross ⟨0, 10, 20⟩ ⟨0, 1, 0⟩ ≠ Vec3.zero3 ∧
    Vec3.cross ⟨10, 0, 20⟩ ⟨0, 10, 20⟩ ≠ Vec3.zero3 :=
  of_decide_eq_true (by with_unfolding_all rfl)

/-- C2 (amended): in both revisions the physics substeps are the first
phase of the frame body and the hand phase follows them; in the
event-driven revision the collision-event drain precedes the combined
sync / goal / cull pass, while in the distance revision the ball position
sync precedes the contact pass and the rear cull follows it. -/
theorem claimC2_theorem (inp : FrameIn) (s : S1) (t : S2) :
    phaseBefore Ev.physStep Ev.handWrite (frame1 inp s).2 = true ∧
    phaseBefore Ev.drainStart Ev.syncScoreStart (frame1 inp s).2 = true ∧
    phaseBefore Ev.physStep Ev.handPhase (frame2 inp t).2 = true ∧
    phaseBefore Ev.syncStart Ev.contactStart (frame2 inp t).2 = true ∧
    phaseBefore Ev.contactStart Ev.cullStart (frame2 inp t).2 = true :=
  ⟨frame1_steps_before_handWrite inp s, frame1_drain_before_syncScore inp s,
   frame2_steps_before_handPhase inp t, frame2_sync_before_contact inp t,
   frame2_contact_before_cull inp t⟩

/-- C2, the claim as stated, fails on the code: in a concrete Rev1 frame
the hand-target write does not precede the physics steps of that frame,
and in a concrete Rev2 frame contact resolution does not precede the ball
position sync. -/
theorem claimC2_counterexample :
    phaseBefore Ev.handWrite Ev.physStep (frame1 frameIn0 init1).2 = false ∧
    phaseBefore Ev.contactStart Ev.syncStart (frame2 frameIn0 init2).2 = false :=
  ⟨by with_unfolding_all rfl, by with_unfolding_all rfl⟩

/-- C3: the eventQueue property read off the physics world is never
assigned, so on every reachable Rev1 state it is still absent, the drain
loop body never runs (no frame ever emits a resolver event), and the
saves counter equals 0. -/
theorem claimC3_theorem (s : S1) (h : Reachable1 s) :
    s.savesCount = 0 ∧ s.world.eventQueue = none ∧
    ∀ (inp : FrameIn) (bid : Nat), Ev.saveResolve bid ∉ (frame1 inp s).2 := by
  have hd := reachable1_dead h
  exact ⟨hd.2, hd.1, fun inp bid => (frame1_dead_drain inp s hd.1).2.2 bid⟩

theorem claimC3_witness :
    Reachable1 (frame1 frameIn0 init1).1 ∧
    (frame1 frameIn0 init1).1.savesCount = 0 ∧
    (frame1 frameIn0 init1).1.world.eventQueue = none := by
  have hr : Reachable1 (frame1 frameIn0 init1).1 :=
    Reachable1.step Reachable1.init (Step1.frame frameIn0 init1)
  have h := claimC3_theorem (frame1 frameIn0 init1).1 hr
  exact ⟨hr, h.1, h.2.1⟩

/-- C4, the claim as stated, fails on the code: there is no cooldown - in
the distance revision a concrete ball that stays within the contact
threshold of the left hand is resolved again in the immediately following
frame. -/
theorem claimC4_counterexample :
    resolvedIn cex4State frameIn0 2 ∧
    resolvedIn (frame2 frameIn0 cex4State).1 frameIn0 2 :=
  ⟨of_decide_eq_true (by with_unfolding_all rfl),
   of_decide_eq_true (by with_unfolding_all rfl)⟩

/-- C5: on every reachable state of either revision the scene ball meshes,
the world ball bodies and the world ball colliders are exactly the live
collection, so every removal path releases the render and physics
resources together and leaves no orphan. -/
theorem claimC5_theorem :
    (∀ s : S1, Reachable1 s → Aligned1 s) ∧
    (∀ t : S2, Reachable2 t → Aligned2 t) :=
  ⟨fun _ h => (reachable1_inv h).1, fun _ h => (reachable2_inv h).1⟩

theorem claimC5_witness :
    Reachable1 (frame1 frameIn0 init1).1 ∧ Aligned1 (frame1 frameIn0 init1).1 ∧
    Reachable2 (frame2 frameIn0 init2).1 ∧ Aligned2 (frame2 frameIn0 init2).1 := by
  have hr1 : Reachable1 (frame1 frameIn0 init1).1 :=
    Reachable1.step Reachable1.init (Step1.frame frameIn0 init1)
  have hr2 : Reachable2 (frame2 frameIn0 init2).1 :=
    Reachable2.step Reachable2.init (Step2.frame frameIn0 init2)
  exact ⟨hr1, claimC5_theorem.1 _ hr1, hr2, claimC5_theorem.2 _ hr2⟩

theorem notMem_filter_ids {l : List BallEnt} {p : BallEnt → Bool} {b : BallEnt}
    (hd : (IdsOf l).Nodup) (hb : b ∈ l) (hk : p b = false) :
    b.id ∉ IdsOf (l.filter p) := by
  intro hmem
  simp only [IdsOf] at hmem
  rcases List.mem_map.mp hmem with ⟨b2, hb2, he⟩
  have hb2l : b2 ∈ l := List.mem_of_mem_filter hb2
  have hk2 : p b2 = true := List.of_mem_filter hb2
  have heq : b2 = b := eq_of_mem_nodup_ids hd hb2l hb he
  rw [heq, hk] at hk2
  exact Bool.false_ne_true hk2

/-- C6: a live ball whose position passes the four goal-bound inequalities
and the z-plane tolerance is counted exactly once by the goal counter of
that pass (the counter gains one per passing ball), is removed from the
live collection and from the scene, and its body leaves the physics world. -/
theorem claimC6_theorem (s : S1) (b : BallEnt)
    (ha : Aligned1 s) (hd : (IdsOf s.balls).Nodup)
    (hb : b ∈ s.balls)
    (hg : checkForGoal (World.getBody s.world b.id).pos = true) :
    (syncScore1 s).goalsCount = s.goalsCount + s.balls.countP (goalHit1 s.world) ∧
    1 ≤ s.balls.countP (goalHit1 s.world) ∧
    b.id ∉ IdsOf (syncScore1 s).balls ∧
    b.id ∉ (syncScore1 s).sceneBalls ∧
    findBody (syncScore1 s).world.ballBodies b.id = none := by
  obtain ⟨h1, h2, h3⟩ := ha
  have hspec := syncScoreGo_spec s.balls s.world s.sceneBalls s.goalsCount []
    (by simpa using h1) (by simpa using h2) (by simpa using h3) (by simpa using hd)
  have hgb : goalHit1 s.world b = true := hg
  have hkb : keep1 s.world b = false := by simp [keep1, goalHit1, hg]
  have hnotin : b.id ∉ IdsOf (s.balls.filter (keep1 s.world)) :=
    notMem_filter_ids hd hb hkb
  refine ⟨?_, ?_, ?_, ?_, ?_⟩
  · show (syncScoreGo s.world s.sceneBalls s.goalsCount s.balls).goals = _
    exact hspec.2.1
  · have := List.countP_pos_iff.mpr ⟨b, hb, hgb⟩
    omega
  · show b.id ∉ IdsOf (syncScoreGo s.world s.sceneBalls s.goalsCount s.balls).balls
    rw [hspec.1, IdsOf_map_updMesh]
    exact hnotin
  · show b.id ∉ (syncScoreGo s.world s.sceneBalls s.goalsCount s.balls).scene
    rw [hspec.2.2.1]
    simpa using hnotin
  · apply findBody_eq_none
    show b.id ∉ (syncScoreGo s.world s.sceneBalls s.goalsCount s.balls).world.ballBodies.map Prod.fst
    rw [hspec.2.2.2.1]
    simpa using hnotin

theorem claimC6_witness :
    Aligned1 wit6State ∧ (IdsOf wit6State.balls).Nodup ∧
    (⟨2, ⟨0, 3, 0⟩⟩ : BallEnt) ∈ wit6State.balls ∧
    checkForGoal (World.getBody wit6State.world 2).pos = true ∧
    ((syncScore1 wit6State).goalsCount
       = wit6State.goalsCount + wit6State.balls.countP (goalHit1 wit6State.world) ∧
     1 ≤ wit6State.balls.countP (goalHit1 wit6State.world) ∧
     (2 : Nat) ∉ IdsOf (syncScore1 wit6State).balls ∧
     (2 : Nat) ∉ (syncScore1 wit6State).sceneBalls ∧
     findBody (syncScore1 wit6State).world.ballBodies 2 = none) := by
  have ha : Aligned1 wit6State := of_decide_eq_true (by with_unfolding_all rfl)
  have hd : (IdsOf wit6State.balls).Nodup := of_decide_eq_true (by with_unfolding_all rfl)
  have hb : (⟨2, ⟨0, 3, 0⟩⟩ : BallEnt) ∈ wit6State.balls :=
    of_decide_eq_true (by with_unfolding_all rfl)
  have hg : checkForGoal (World.getBody wit6State.world 2).pos = true := by
    with_unfolding_all rfl
  exact ⟨ha, hd, hb, hg, claimC6_theorem wit6State ⟨2, ⟨0, 3, 0⟩⟩ ha hd hb hg⟩

/-- C7: a ball behind the rear threshold fails the goal test, so the rear
cull removes it from the live collection, the scene and the physics world
while the saves counter is untouched by the pass and the goal counter
counts only goal-passing balls; in the distance revision (which has no
counters) the cull likewise removes the ball from all three places. -/
theorem claimC7_theorem :
    (∀ (s : S1) (b : BallEnt), Aligned1 s → (IdsOf s.balls).Nodup → b ∈ s.balls →
      (World.getBody s.world b.id).pos.z < -10 →
      goalHit1 s.world b = false ∧
      (syncScore1 s).savesCount = s.savesCount ∧
      (syncScore1 s).goalsCount = s.goalsCount + s.balls.countP (goalHit1 s.world) ∧
      b.id ∉ IdsOf (syncScore1 s).balls ∧
      b.id ∉ (syncScore1 s).sceneBalls ∧
      findBody (syncScore1 s).world.ballBodies b.id = none) ∧
    (∀ (t : S2) (b : BallEnt), Aligned2 t → (IdsOf t.balls).Nodup → b ∈ t.balls →
      b.meshPos.z < -10 →
      b.id ∉ IdsOf (cull2 t).balls ∧
      b.id ∉ (cull2 t).sceneBalls ∧
      findBody (cull2 t).world.ballBodies b.id = none) := by
  constructor
  · intro s b ha hd hb hz
    obtain ⟨h1, h2, h3⟩ := ha
    have hspec := syncScoreGo_spec s.balls s.world s.sceneBalls s.goalsCount []
      (by simpa using h1) (by simpa using h2) (by simpa using h3) (by simpa using hd)
    have hgb : goalHit1 s.world b = false := goalHit1_false_of_behind s.world b hz
    have hkb : keep1 s.world b = false := by
      simp [keep1, behindHit1, hz]
    have hnotin : b.id ∉ IdsOf (s.balls.filter (keep1 s.world)) :=
      notMem_filter_ids hd hb hkb
    refine ⟨hgb, rfl, ?_, ?_, ?_, ?_⟩
    · show (syncScoreGo s.world s.sceneBalls s.goalsCount s.balls).goals = _
      exact hspec.2.1
    · show b.id ∉ IdsOf (syncScoreGo s.world s.sceneBalls s.goalsCount s.balls).balls
      rw [hspec.1, IdsOf_map_updMesh]
      exact hnotin
    · show b.id ∉ (syncScoreGo s.world s.sceneBalls s.goalsCount s.balls).scene
      rw [hspec.2.2.1]
      simpa using hnotin
    · apply findBody_eq_none
      show b.id ∉ (syncScoreGo s.world s.sceneBalls s.goalsCount s.balls).world.ballBodies.map Prod.fst
      rw [hspec.2.2.2.1]
      simpa using hnotin
  · intro t b ha hd hb hz
    obtain ⟨h1, h2, h3⟩ := ha
    have hspec := cullGo2_spec t.balls t.world t.sceneBalls []
      (by simpa using h1) (by simpa using h2) (by simpa using h3) (by simpa using hd)
    have hkb : keep2 b = false := by simp [keep2, hz]
    have hnotin : b.id ∉ IdsOf (t.balls.filter keep2) :=
      notMem_filter_ids hd hb hkb
    refine ⟨?_, ?_, ?_⟩
    · show b.id ∉ IdsOf (cullGo2 t.world t.sceneBalls t.balls).2.2
      rw [hspec.1]
      exact hnotin
    · show b.id ∉ (cullGo2 t.world t.sceneBalls t.balls).2.1
      rw [hspec.2.1]
      simpa using hnotin
    · apply findBody_eq_none
      show b.id ∉ (cullGo2 t.world t.sceneBalls t.balls).1.ballBodies.map Prod.fst
      rw [hspec.2.2.1]
      simpa using hnotin

theorem claimC7_witness :
    Aligned1 wit7State ∧ (⟨2, ⟨0, 3, -11⟩⟩ : BallEnt) ∈ wit7State.balls ∧
    (World.getBody wit7State.world 2).pos.z < -10 ∧
    (goalHit1 wit7State.world ⟨2, ⟨0, 3, -11⟩⟩ = false ∧
     (syncScore1 wit7State).savesCount = wit7State.savesCount ∧
     (syncScore1 wit7State).goalsCount
       = wit7State.goalsCount + wit7State.balls.countP (goalHit1 wit7State.world) ∧
     (2 : Nat) ∉ IdsOf (syncScore1 wit7State).balls ∧
     (2 : Nat) ∉ (syncScore1 wit7State).sceneBalls ∧
     findBody (syncScore1 wit7State).world.ballBodies 2 = none) ∧
    Aligned2 wit7State2 ∧ (⟨2, ⟨0, 3, -11⟩⟩ : BallEnt) ∈ wit7State2.balls ∧
    ((2 : Nat) ∉ IdsOf (cull2 wit7State2).balls ∧
     (2 : Nat) ∉ (cull2 wit7State2).sceneBalls ∧
     findBody (cull2 wit7State2).world.ballBodies 2 = none) := by
  have ha1 : Aligned1 wit7State := of_decide_eq_true (by with_unfolding_all rfl)
  have hd1 : (IdsOf wit7State.balls).Nodup := of_decide_eq_true (by with_unfolding_all rfl)
  have hb1 : (⟨2, ⟨0, 3, -11⟩⟩ : BallEnt) ∈ wit7State.balls :=
    of_decide_eq_true (by with_unfolding_all rfl)
  have hz1 : (World.getBody wit7State.world 2).pos.z < -10 :=
    of_decide_eq_true (by with_unfolding_all rfl)
  have ha2 : Aligned2 wit7State2 := of_decide_eq_true (by with_unfolding_all rfl)
  have hd2 : (IdsOf wit7State2.balls).Nodup := of_decide_eq_true (by with_unfolding_all rfl)
  have hb2 : (⟨2, ⟨0, 3, -11⟩⟩ : BallEnt) ∈ wit7State2.balls :=
    of_decide_eq_true (by with_unfolding_all rfl)
  have hz2 : (⟨2, ⟨0, 3, -11⟩⟩ : BallEnt).meshPos.z < -10 :=
    of_decide_eq_true (by with_unfolding_all rfl)
  exact ⟨ha1, hb1, hz1,
    claimC7_theorem.1 wit7State ⟨2, ⟨0, 3, -11⟩⟩ ha1 hd1 hb1 hz1,
    ha2, hb2,
    claimC7_theorem.2 wit7State2 ⟨2, ⟨0, 3, -11⟩⟩ ha2 hd2 hb2 hz2⟩

/-- C8: a null landmark argument or an array of fewer than 33 entries
leaves the whole game state, and in particular both hand mesh positions,
unchanged in both revisions; the embedded update functions are total, so
no exception escapes. -/
theorem claimC8_theorem (lm : Option (List Landmark)) (s1 : S1) (s2 : S2)
    (h : lm = none ∨ ∃ l, lm = some l ∧ l.length < 33) :
    updatePlayerPosition1 lm s1 = s1 ∧ updatePlayerPosition2 lm s2 = s2 := by
  rcases h with h | ⟨l, h, hl⟩ <;> subst h
  · exact ⟨rfl, rfl⟩
  · constructor
    · simp only [updatePlayerPosition1, dif_pos hl]
    · simp only [updatePlayerPosition2, dif_pos hl]

theorem claimC8_witness :
    ((some (List.replicate 5 (⟨0, 0, 0, none⟩ : Landmark)) : Option (List Landmark)) = none ∨
      ∃ l, (some (List.replicate 5 (⟨0, 0, 0, none⟩ : Landmark)) : Option (List Landmark))
             = some l ∧ l.length < 33) ∧
    updatePlayerPosition1 (some (List.replicate 5 ⟨0, 0, 0, none⟩)) init1 = init1 ∧
    updatePlayerPosition2 (some (List.replicate 5 ⟨0, 0, 0, none⟩)) init2 = init2 := by
  have h : (some (List.replicate 5 (⟨0, 0, 0, none⟩ : Landmark)) : Option (List Landmark)) = none ∨
      ∃ l, (some (List.replicate 5 (⟨0, 0, 0, none⟩ : Landmark)) : Option (List Landmark))
             = some l ∧ l.length < 33 :=
    Or.inr ⟨List.replicate 5 ⟨0, 0, 0, none⟩, rfl, by decide⟩
  have hc := claimC8_theorem (some (List.replicate 5 ⟨0, 0, 0, none⟩)) init1 init2 h
  exact ⟨h, hc.1, hc.2⟩

/-- C9: in both revisions, a shot attempted within SHOT_INTERVAL of the
last successful shot is a no-op, so two attempts inside the interval add
exactly one ball (one mesh, one body, one collider, all sharing a fresh
handle), and an attempt after the interval has elapsed adds exactly one
more. -/
theorem claimC9_theorem (s1 : S1) (s2 : S2) (i1 i2 i3 : FrameIn)
    (h1 : SHOT_INTERVAL ≤ i1.now - s1.lastShot)
    (h1b : SHOT_INTERVAL ≤ i1.now - s2.lastShot)
    (h2 : i2.now - i1.now < SHOT_INTERVAL)
    (h3 : SHOT_INTERVAL ≤ i3.now - i1.now) :
    ((shootBall1 i1 s1).1.balls.length = s1.balls.length + 1 ∧
     (shootBall1 i1 s1).1.sceneBalls.length = s1.sceneBalls.length + 1 ∧
     (shootBall1 i1 s1).1.world.ballBodies.length = s1.world.ballBodies.length + 1 ∧
     (shootBall1 i1 s1).1.world.ballColliders.length
       = s1.world.ballColliders.length + 1 ∧
     (shootBall1 i2 (shootBall1 i1 s1).1).1 = (shootBall1 i1 s1).1 ∧
     (shootBall1 i3 (shootBall1 i2 (shootBall1 i1 s1).1).1).1.balls.length
       = (shootBall1 i1 s1).1.balls.length + 1) ∧
    ((shootBall2 i1 s2).1.balls.length = s2.balls.length + 1 ∧
     (shootBall2 i1 s2).1.sceneBalls.length = s2.sceneBalls.length + 1 ∧
     (shootBall2 i1 s2).1.world.ballBodies.length = s2.world.ballBodies.length + 1 ∧
     (shootBall2 i1 s2).1.world.ballColliders.length
       = s2.world.ballColliders.length + 1 ∧
     (shootBall2 i2 (shootBall2 i1 s2).1).1 = (shootBall2 i1 s2).1 ∧
     (shootBall2 i3 (shootBall2 i2 (shootBall2 i1 s2).1).1).1.balls.length
       = (shootBall2 i1 s2).1.balls.length + 1) := by
  constructor
  · have hn1 : ¬ i1.now - s1.lastShot < SHOT_INTERVAL := by omega
    obtain ⟨f1, f2, f3, f4, f5, f6, -, -, -⟩ := shootBall1_spawn_fields i1 s1 hn1
    have hnoop : (shootBall1 i2 (shootBall1 i1 s1).1).1 = (shootBall1 i1 s1).1 := by
      apply shootBall1_noop
      rw [f6]
      omega
    have hn3 : ¬ i3.now - (shootBall1 i2 (shootBall1 i1 s1).1).1.lastShot
        < SHOT_INTERVAL := by
      rw [hnoop, f6]
      omega
    obtain ⟨g1, -, -, -, -, -, -, -, -⟩ := shootBall1_spawn_fields i3 _ hn3
    refine ⟨by rw [f1]; simp, by rw [f2]; simp, ?_, by rw [f4]; simp, hnoop, ?_⟩
    · have hc := congrArg List.length f3
      simpa using hc
    · rw [g1, hnoop]
      simp
  · have hn1 : ¬ i1.now - s2.lastShot < SHOT_INTERVAL := by omega
    obtain ⟨f1, f2, f3, f4, f5, f6, -⟩ := shootBall2_spawn_fields i1 s2 hn1
    have hnoop : (shootBall2 i2 (shootBall2 i1 s2).1).1 = (shootBall2 i1 s2).1 := by
      apply shootBall2_noop
      rw [f6]
      omega
    have hn3 : ¬ i3.now - (shootBall2 i2 (shootBall2 i1 s2).1).1.lastShot
        < SHOT_INTERVAL := by
      rw [hnoop, f6]
      omega
    obtain ⟨g1, -, -, -, -, -, -⟩ := shootBall2_spawn_fields i3 _ hn3
    refine ⟨by rw [f1]; simp, by rw [f2]; simp, ?_, by rw [f4]; simp, hnoop, ?_⟩
    · have hc := congrArg List.length f3
      simpa using hc
    · rw [g1, hnoop]
      simp

theorem claimC9_witness :
    SHOT_INTERVAL ≤ (2000 : Int) - init1.lastShot ∧
    (3999 : Int) - 2000 < SHOT_INTERVAL ∧
    SHOT_INTERVAL ≤ (4000 : Int) - 2000 ∧
    (shootBall1 ⟨2000, 0, 0, 0, 0, 1⟩ init1).1.balls.length = init1.balls.length + 1 ∧
    (shootBall1 ⟨3999, 0, 0, 0, 0, 1⟩ (shootBall1 ⟨2000, 0, 0, 0, 0, 1⟩ init1).1).1
      = (shootBall1 ⟨2000, 0, 0, 0, 0, 1⟩ init1).1 ∧
    (shootBall1 ⟨4000, 0, 0, 0, 0, 1⟩
        (shootBall1 ⟨3999, 0, 0, 0, 0, 1⟩ (shootBall1 ⟨2000, 0, 0, 0, 0, 1⟩ init1).1).1).1.balls.length
      = (shootBall1 ⟨2000, 0, 0, 0, 0, 1⟩ init1).1.balls.length + 1 ∧
    (shootBall2 ⟨2000, 0, 0, 0, 0, 1⟩ init2).1.balls.length = init2.balls.length + 1 := by
  have h := claimC9_theorem init1 init2
    ⟨2000, 0, 0, 0, 0, 1⟩ ⟨3999, 0, 0, 0, 0, 1⟩ ⟨4000, 0, 0, 0, 0, 1⟩
    (by decide) (by decide) (by decide) (by decide)
  exact ⟨by decide, by decide, by decide, h.1.1, h.1.2.2.2.2.1, h.1.2.2.2.2.2, h.2.1⟩

/-- C10: the two revisions assign the wrist landmark indices to opposite
hands - on any 33-entry landmark array the event-driven revision maps
entry 16 to the left hand and entry 15 to the right, while the distance
revision maps entry 15 to the left hand and entry 16 to the right (each
through its own affine transform), so the landmark-to-hand mappings are
swapped rather than equal. -/
theorem claimC10_theorem (l : List Landmark) (h : 33 ≤ l.length) (s1 : S1) (s2 : S2) :
    (updatePlayerPosition1 (some l) s1).leftHandMesh
      = ⟨(l.get ⟨16, by omega⟩).x * 20 - 10, (1 - (l.get ⟨16, by omega⟩).y) * 7, 2⟩ ∧
    (updatePlayerPosition1 (some l) s1).rightHandMesh
      = ⟨(l.get ⟨15, by omega⟩).x * 20 - 10, (1 - (l.get ⟨15, by omega⟩).y) * 7, 2⟩ ∧
    (updatePlayerPosition2 (some l) s2).leftHandMesh
      = ⟨(l.get ⟨15, by omega⟩).x * 10 - 5, (1 - (l.get ⟨15, by omega⟩).y) * 4, 0⟩ ∧
    (updatePlayerPosition2 (some l) s2).rightHandMesh
      = ⟨(l.get ⟨16, by omega⟩).x * 10 - 5, (1 - (l.get ⟨16, by omega⟩).y) * 4, 0⟩ := by
  have hl : ¬ l.length < 33 := by omega
  refine ⟨?_, ?_, ?_, ?_⟩ <;>
    simp only [updatePlayerPosition1, updatePlayerPosition2, dif_neg hl]

theorem claimC10_witness :
    33 ≤ wit10Lms.length ∧
    (updatePlayerPosition1 (some wit10Lms) init1).leftHandMesh = ⟨310, 7, 2⟩ ∧
    (updatePlayerPosition1 (some wit10Lms) init1).rightHandMesh = ⟨290, 7, 2⟩ ∧
    (updatePlayerPosition2 (some wit10Lms) init2).leftHandMesh = ⟨145, 4, 0⟩ ∧
    (updatePlayerPosition2 (some wit10Lms) init2).rightHandMesh = ⟨155, 4, 0⟩ := by
  have hlen : 33 ≤ wit10Lms.length := by decide
  have h := claimC10_theorem wit10Lms hlen init1 init2
  have e1 : (⟨(wit10Lms.get ⟨16, by decide⟩).x * 20 - 10,
      (1 - (wit10Lms.get ⟨16, by decide⟩).y) * 7, 2⟩ : Vec3) = ⟨310, 7, 2⟩ := by
    with_unfolding_all rfl
  have e2 : (⟨(wit10Lms.get ⟨15, by decide⟩).x * 20 - 10,
      (1 - (wit10Lms.get ⟨15, by decide⟩).y) * 7, 2⟩ : Vec3) = ⟨290, 7, 2⟩ := by
    with_unfolding_all rfl
  have e3 : (⟨(wit10Lms.get ⟨15, by decide⟩).x * 10 - 5,
      (1 - (wit10Lms.get ⟨15, by decide⟩).y) * 4, 0⟩ : Vec3) = ⟨145, 4, 0⟩ := by
    with_unfolding_all rfl
  have e4 : (⟨(wit10Lms.get ⟨16, by decide⟩).x * 10 - 5,
      (1 - (wit10Lms.get ⟨16, by decide⟩).y) * 4, 0⟩ : Vec3) = ⟨155, 4, 0⟩ := by
    with_unfolding_all rfl
  exact ⟨hlen, h.1.trans e1, h.2.1.trans e2, h.2.2.1.trans e3, h.2.2.2.trans e4⟩
